import Mathlib

/-!
# StoreFront (payment/static/js/main.js): cart state controller and transport

A shallow embedding of the `StoreFront` class: the cookie parser `_getCookie`, the transport
`_fetchApi`, and the operations `addToCart`, `removeItem`, `checkout`, `updateCartCount`.

Conventions of the embedding.

* JavaScript strings are Lean strings; the splitting primitives work on the underlying
  character lists.
* JavaScript values are the inductive `JsValue`; a Number is an integer-valued double, `NaN` or
  an infinity (fractions are outside the model).  Addition rounds to the nearest double and the
  conversion to a string prints the shortest decimal that reads back as the same double.
* An `async` method is a function on an explicit `World`; a call to `fetch` appends the request
  to the world's log and takes the answer of the `server` oracle, `await` on it appends a
  `settled` mark.  A method that is called without `await` (`this.updateCartCount()` inside the
  mutating operations) only runs up to its first suspension point: the request is logged, the
  continuation is recorded in `pending`.
-/

namespace StoreFront

/-! ## String splitting (`String.prototype.split` with a string separator) -/

section Split

variable {α : Type} [DecidableEq α]

/-- Cut `s` at the first occurrence of `sep`: the text before it and the text after it
(`StringIndexOf` followed by the two substrings). -/
def cut (sep : List α) : List α → Option (List α × List α)
  | [] => if sep = [] then some ([], []) else none
  | c :: cs =>
    if sep.isPrefixOf (c :: cs) then some ([], (c :: cs).drop sep.length)
    else (cut sep cs).map (fun p => (c :: p.1, p.2))

/-- The loop of `split`: repeatedly cut at the next occurrence of the separator.  The first
argument bounds the number of iterations. -/
def splitGo (sep : List α) : Nat → List α → List (List α)
  | 0, s => [s]
  | n + 1, s =>
    match cut sep s with
    | none => [s]
    | some (a, b) => a :: splitGo sep n b

/-- The parts of `s` between the successive occurrences of a non-empty separator. -/
def jsSplit (sep s : List α) : List (List α) :=
  splitGo sep s.length s

/-- Number of positions of `s` at which `sep` occurs (occurrences may overlap). -/
def countOccurrences (sep : List α) : List α → Nat
  | [] => if sep = [] then 1 else 0
  | c :: cs => (if sep.isPrefixOf (c :: cs) then 1 else 0) + countOccurrences sep cs

end Split

/-- The call `s.split(sep)` for a string separator: an empty separator splits into single characters,
any other separator splits at its successive occurrences. -/
def split (s sep : String) : List String :=
  if sep.data = [] then s.data.map (fun c => String.mk [c])
  else (jsSplit sep.data s.data).map String.mk

/-- Number of positions of `s` at which `sep` occurs. -/
def occurrences (s sep : String) : Nat :=
  countOccurrences sep.data s.data

/-- The method `_getCookie(name)`, with `document.cookie` as the first argument; `none` is `undefined`.
`parts.pop()` is the last part, `.shift()` the first element of the second split. -/
def _getCookie (cookie name : String) : Option String :=
  let value := "; " ++ cookie
  let parts := split value ("; " ++ name ++ "=")
  if parts.length = 2 then
    parts.getLast?.bind (fun p => (split p ";").head?)
  else none

/-! ## Numbers -/

/-- Number of binary digits of `x`; the first argument bounds the number of halvings. -/
def bitLength : Nat → Nat → Nat
  | 0, _ => 0
  | fuel + 1, x => if x = 0 then 0 else bitLength fuel (x / 2) + 1

/-- The double nearest to the natural number `x`, ties to the even significand, before the
overflow check: below `2 ^ 53` every natural number is a double, above it the 53 leading bits
are kept. -/
def roundNat (x : Nat) : Nat :=
  if x < 2 ^ 53 then x
  else
    let e := bitLength x x - 53
    let q := x / 2 ^ e
    let r := x % 2 ^ e
    let half := 2 ^ (e - 1)
    if half < r ∨ (r = half ∧ q % 2 = 1) then (q + 1) * 2 ^ e else q * 2 ^ e

/-- Number of decimal digits of `x`. -/
def decimalLength (x : Nat) : Nat := (Nat.toDigits 10 x).length

/-- Search for the decimal with the fewest significant digits that reads back as the double `x`
(which has `nx` digits): with `k` digits kept, the candidates are the multiples of
`10 ^ (nx - k)` just below and just above `x`; of two that read back as `x` the closer one is
taken, the even one on a tie. -/
def shortestGo (x nx : Nat) : Nat → Nat → Nat
  | 0, _ => x
  | fuel + 1, k =>
    let p := 10 ^ (nx - k)
    let lo := x / p * p
    let hi := lo + p
    if roundNat lo = x ∧ roundNat hi = x then
      if x - lo < hi - x then lo
      else if hi - x < x - lo then hi
      else if (lo / p) % 2 = 0 then lo else hi
    else if roundNat lo = x then lo
    else if roundNat hi = x then hi
    else shortestGo x nx fuel (k + 1)

/-- The shortest decimal that reads back as the double `x`. -/
def shortest (x : Nat) : Nat :=
  shortestGo x (decimalLength x) (decimalLength x) 1

/-- The digits without their trailing zeros. -/
def stripZeros (ds : List Char) : List Char :=
  (ds.reverse.dropWhile (fun c => c == '0')).reverse

/-- The string form of a non-negative integer-valued double (`Number::toString`, radix 10).
Below `2 ^ 53` the shortest decimal is the decimal expansion itself.  From there on the shortest
decimal is printed, in full up to 21 digits and in exponent form beyond. -/
def natToString (x : Nat) : String :=
  if x < 2 ^ 53 then toString x
  else
    let ds := Nat.toDigits 10 (shortest x)
    if ds.length ≤ 21 then String.mk ds
    else
      match stripZeros ds with
      | [] => String.mk ds
      | [d] => String.mk [d] ++ "e+" ++ toString (ds.length - 1)
      | d :: rest => String.mk (d :: '.' :: rest) ++ "e+" ++ toString (ds.length - 1)

/-- The string form of a finite integer-valued Number. -/
def numberToString : Int → String
  | .ofNat m => natToString m
  | .negSucc m => "-" ++ natToString (m + 1)

/-- Every quantity, and every running sum `acc + q₁ + ... + qᵢ`, is a safe integer: its absolute
value is below `2 ^ 53`. -/
def safeSums : Int → List Int → Bool
  | _, [] => true
  | acc, q :: rest =>
    decide (q.natAbs < 2 ^ 53) && decide ((acc + q).natAbs < 2 ^ 53) && safeSums (acc + q) rest

/-! ## JavaScript values -/

/-- A JavaScript value as far as this program sees one: the results of `JSON.parse`, `undefined`
and the Numbers that addition produces.  `num n` is the finite Number with the integer value `n`
(both zeros are `num 0`: they are falsy, print as `0` and add alike), `inf negative` an infinity.
`obj` lists the own properties of an object. -/
inductive JsValue where
  | undefined
  | null
  | bool (b : Bool)
  | num (n : Int)
  | nan
  | inf (negative : Bool)
  | str (s : String)
  | arr (items : List JsValue)
  | obj (fields : List (String × JsValue))

/-- A thrown value: `new Error(message)`, or an error raised by the runtime itself. -/
inductive JsError where
  | error (message : String)
  | typeError
  | syntaxError
  deriving DecidableEq, Repr

/-- Outcome of evaluating an expression or awaiting a promise: a value, or a thrown error. -/
inductive Completion (α : Type) where
  | normal (value : α)
  | throw (e : JsError)

/-- The value is `undefined` or `null`. -/
def JsValue.isNullish : JsValue → Bool
  | .undefined => true
  | .null => true
  | _ => false

/-- The conversion `ToBoolean`. -/
def JsValue.truthy : JsValue → Bool
  | .undefined => false
  | .null => false
  | .bool b => b
  | .num n => n != 0
  | .nan => false
  | .inf _ => true
  | .str s => s != ""
  | .arr _ => true
  | .obj _ => true

/-- Reading property `key` of a value that is neither `undefined` nor `null`, for the property
names this program reads (`id`, `detail`, `order_items`, `quantity`, `checkout_url`), none of
which a prototype defines: an own property of an object, `undefined` otherwise. -/
def JsValue.prop (v : JsValue) (key : String) : JsValue :=
  match v with
  | .obj fields => (fields.lookup key).getD .undefined
  | _ => .undefined

/-- The expression `v.key`: a `TypeError` on `undefined` and `null`. -/
def getProp (v : JsValue) (key : String) : Completion JsValue :=
  if v.isNullish then .throw .typeError else .normal (v.prop key)

/-- The expression `v?.key`. -/
def optProp (v : JsValue) (key : String) : JsValue :=
  if v.isNullish then .undefined else v.prop key

mutual
/-- The conversion `ToString`.  An array is joined with commas; an object prints as `[object Object]` unless an
own property shadows `toString` (a parsed value is not callable, so the conversion throws). -/
def toStr : JsValue → Completion String
  | .undefined => .normal "undefined"
  | .null => .normal "null"
  | .bool b => .normal (if b then "true" else "false")
  | .num n => .normal (numberToString n)
  | .nan => .normal "NaN"
  | .inf negative => .normal (if negative then "-Infinity" else "Infinity")
  | .str s => .normal s
  | .arr xs =>
    match elemStrs xs with
    | .normal l => .normal (",".intercalate l)
    | .throw e => .throw e
  | .obj fs =>
    if (fs.lookup "toString").isSome then .throw .typeError else .normal "[object Object]"
termination_by structural v => v
/-- The strings that `Array.prototype.join` concatenates: empty for `undefined` and `null`. -/
def elemStrs : List JsValue → Completion (List String)
  | [] => .normal []
  | x :: xs =>
    match (if x.isNullish then Completion.normal "" else toStr x) with
    | .throw e => .throw e
    | .normal a =>
      match elemStrs xs with
      | .throw e => .throw e
      | .normal l => .normal (a :: l)
termination_by structural l => l
end

/-- The conversion `ToPrimitive`: arrays and objects convert through their string form. -/
def toPrimitive (v : JsValue) : Completion JsValue :=
  match v with
  | .arr _ | .obj _ =>
    match toStr v with
    | .normal s => .normal (.str s)
    | .throw e => .throw e
  | _ => .normal v

/-- The conversion `ToNumber` of a primitive that is not a string: a finite Number, `NaN` or an
infinity. -/
def toNumber : JsValue → JsValue
  | .null => .num 0
  | .bool b => .num (if b then 1 else 0)
  | .num n => .num n
  | .inf negative => .inf negative
  | _ => .nan

/-- The Number for the exact integer `x`: the nearest double, an infinity when that is out of
range (it has more than 1024 binary digits, that is, it reaches `2 ^ 1024`). -/
def roundToNumber (x : Int) : JsValue :=
  if 1024 < bitLength (roundNat x.natAbs) (roundNat x.natAbs) then .inf (decide (x < 0))
  else if x < 0 then .num (-(roundNat x.natAbs : Int))
  else .num (roundNat x.natAbs)

/-- The sum of two Numbers: the exact sum rounded to a double; infinities of opposite sign, and
anything with `NaN`, give `NaN`. -/
def numAdd : JsValue → JsValue → JsValue
  | .num m, .num n => roundToNumber (m + n)
  | .inf a, .inf b => if a = b then .inf a else .nan
  | .inf a, .num _ => .inf a
  | .num _, .inf b => .inf b
  | _, _ => .nan

/-- The operator `+`: concatenation when either primitive is a string, addition otherwise. -/
def jsAdd (a b : JsValue) : Completion JsValue :=
  match toPrimitive a with
  | .throw e => .throw e
  | .normal pa =>
    match toPrimitive b with
    | .throw e => .throw e
    | .normal pb =>
      match pa, pb with
      | .str x, _ =>
        match toStr pb with
        | .normal y => .normal (.str (x ++ y))
        | .throw e => .throw e
      | _, .str y =>
        match toStr pa with
        | .normal x => .normal (.str (x ++ y))
        | .throw e => .throw e
      | _, _ => .normal (numAdd (toNumber pa) (toNumber pb))

/-! ## The page and the network -/

/-- The request handed to `fetch`: address, method, the three headers, the credentials mode and
the value serialised as the body (absent when `data` is falsy). -/
structure Request where
  url : String
  method : String
  contentType : String
  csrfToken : Option String
  requestedWith : String
  credentials : String
  body : Option JsValue

/-- What a call to `fetch` leads to: a rejection, or a response with its status and the outcome
of `response.json()`. -/
inductive FetchResult where
  | rejected (e : JsError)
  | response (status : Nat) (json : Completion JsValue)

/-- What a timer runs when it fires. -/
inductive TimerTask where
  | reload
  | toastShow
  deriving DecidableEq, Repr

/-- Observable effects, in the order they happen. -/
inductive Event where
  | request (r : Request)
  | settled (res : FetchResult)
  | consoleError (label : String) (e : JsError)
  | toast (message : String) (type : String)
  | setTimeout (delay : Nat) (task : TimerTask)
  | navigate (url : String)

/-- A button: its `disabled` flag and its label. -/
structure Button where
  disabled : Bool
  textContent : String
  deriving DecidableEq, Repr

/-- A `.cart-item` element: its node and its `data-item-id` (`undefined` when absent). -/
structure CartItem where
  node : Nat
  itemId : JsValue

/-- The page as the controller sees it.  `server k r` is the answer to the request `r` when it is
the `k`-th one issued; `rows` are the `.cart-item` nodes in the document, none of them inside
another; `cartCount` is the text
of the `.cart-count` element, `none` when there is no such element; `pending` holds, for each
count refresh started and not yet resumed, the answer it will observe. -/
structure World where
  cookie : String
  origin : String
  server : Nat → Request → FetchResult
  sent : Nat
  log : List Event
  cartCount : Option String
  rows : List Nat
  checkoutBtn : Option Button
  pending : List FetchResult

/-- State after an operation triggered by a button: the page, the button, and how the promise of
the `async` method settled. -/
structure Run where
  world : World
  button : Button
  completion : Completion Unit

/-- The fixed API root `this.apiBaseUrl`. -/
def apiBaseUrl : String := "/api/"

/-- The flag `response.ok`: the status is in the range 200 to 299. -/
def isOk (status : Nat) : Bool :=
  decide (200 ≤ status) && decide (status ≤ 299)

/-- The call `console.error(label, e)`. -/
def consoleError (w : World) (label : String) (e : JsError) : World :=
  { w with log := w.log ++ [Event.consoleError label e] }

/-- The method `showToast(message, type)`: the toast element is appended to the body and the timer that makes
it appear is started (the later timers start when that one fires). -/
def showToast (w : World) (message type : String) : World :=
  { w with log := w.log ++ [Event.toast message type, Event.setTimeout 10 TimerTask.toastShow] }

/-- The `options` of `_fetchApi` and the address it fetches. -/
def buildRequest (w : World) (endpoint method : String) (data : JsValue) : Request :=
  { url := apiBaseUrl ++ endpoint
    method := method
    contentType := "application/json"
    csrfToken := _getCookie w.cookie "csrftoken"
    requestedWith := "XMLHttpRequest"
    credentials := "include"
    body := if data.truthy then some data else none }

/-- The method `_fetchApi` up to its suspension at `await fetch(...)`: the request is issued. -/
def _fetchApiSend (w : World) (endpoint method : String) (data : JsValue) :
    World × FetchResult :=
  let req := buildRequest w endpoint method data
  ({ w with sent := w.sent + 1, log := w.log ++ [Event.request req] }, w.server w.sent req)

/-- The error `_fetchApi` throws on a response that is not ok: `errorData.detail`, or the generic
message, passed to `new Error`. -/
def errorOf (status : Nat) (json : Completion JsValue) : JsError :=
  let errorData : JsValue :=
    match json with
    | .normal v => v
    | .throw _ => .obj []
  match getProp errorData "detail" with
  | .throw e => e
  | .normal detail =>
    let message : JsValue :=
      if detail.truthy then detail else .str ("Request failed: " ++ toString status)
    match toStr message with
    | .throw e => e
    | .normal m => .error m

/-- The method `_fetchApi` from the moment `fetch` settles. -/
def _fetchApiSettle (w : World) (endpoint : String) (res : FetchResult) :
    World × Completion JsValue :=
  let w1 := { w with log := w.log ++ [Event.settled res] }
  match res with
  | .rejected e => (consoleError w1 ("API Error (" ++ endpoint ++ "):") e, .throw e)
  | .response status json =>
    if !isOk status then
      let e := errorOf status json
      (consoleError w1 ("API Error (" ++ endpoint ++ "):") e, .throw e)
    else (w1, json)

/-- The awaited call `this._fetchApi(endpoint, method, data)`. -/
def _fetchApi (w : World) (endpoint method : String) (data : JsValue) :
    World × Completion JsValue :=
  let sent := _fetchApiSend w endpoint method data
  _fetchApiSettle sent.1 endpoint sent.2

/-! ## Cart count -/

/-- The `reduce` of `updateCartCount`: `sum + item.quantity` over the items, starting from `sum`. -/
def sumQuantities : JsValue → List JsValue → Completion JsValue
  | sum, [] => .normal sum
  | sum, item :: rest =>
    match getProp item "quantity" with
    | .throw e => .throw e
    | .normal q =>
      match jsAdd sum q with
      | .throw e => .throw e
      | .normal s => sumQuantities s rest

/-- The call `response.order_items.reduce(..., 0)`: only an array has a `reduce` method. -/
def reduceQuantities (orderItems : JsValue) : Completion JsValue :=
  match orderItems with
  | .arr items => sumQuantities (.num 0) items
  | _ => .throw .typeError

/-- The body of the `try` of `updateCartCount` after the response arrived. -/
def updateCartCountTry (w : World) (response : JsValue) : World × Completion Unit :=
  if (optProp response "order_items").truthy then
    match getProp response "order_items" with
    | .throw e => (w, .throw e)
    | .normal orderItems =>
      match reduceQuantities orderItems with
      | .throw e => (w, .throw e)
      | .normal count =>
        match w.cartCount with
        | none => (w, .normal ())
        | some _ =>
          match toStr count with
          | .throw e => (w, .throw e)
          | .normal text => ({ w with cartCount := some text }, .normal ())
  else (w, .normal ())

/-- The method `updateCartCount` from the moment its `fetch` settles. -/
def updateCartCountFinish (w : World) (res : FetchResult) : World :=
  match _fetchApiSettle w "orders/current/" res with
  | (w1, .throw e) => consoleError w1 "Error updating cart count:" e
  | (w1, .normal response) =>
    match updateCartCountTry w1 response with
    | (w2, .throw e) => consoleError w2 "Error updating cart count:" e
    | (w2, .normal _) => w2

/-- The call `this.updateCartCount()` without `await`: the request is issued, the rest runs later. -/
def updateCartCountStart (w : World) : World :=
  let sent := _fetchApiSend w "orders/current/" "GET" .null
  { sent.1 with pending := sent.1.pending ++ [sent.2] }

/-- The method `updateCartCount()` run to completion. -/
def updateCartCount (w : World) : World :=
  let sent := _fetchApiSend w "orders/current/" "GET" .null
  updateCartCountFinish sent.1 sent.2

/-- The oldest pending count refresh resumes. -/
def resumePending (w : World) : World :=
  match w.pending with
  | [] => w
  | res :: rest => updateCartCountFinish { w with pending := rest } res

/-! ## Add to cart -/

/-- The `try` block of `addToCart`. -/
def addToCartTry (w : World) (productId : JsValue) : World × Completion Unit :=
  match _fetchApi w "orders/current/" "GET" .null with
  | (w1, .throw e) => (w1, .throw e)
  | (w1, .normal orderResponse) =>
    if orderResponse.truthy && (orderResponse.prop "id").truthy then
      match toStr (orderResponse.prop "id") with
      | .throw e => (w1, .throw e)
      | .normal id =>
        match _fetchApi w1 ("orders/" ++ id ++ "/add_item/") "POST"
            (.obj [("item_id", productId), ("quantity", .num 1)]) with
        | (w2, .throw e) => (w2, .throw e)
        | (w2, .normal _) =>
          (updateCartCountStart (showToast w2 "Item added to cart" "success"), .normal ())
    else (w1, .normal ())

/-- The method `addToCart(event)`: `button` is `event.target`, `productId` its `data-product-id`. -/
def addToCart (w : World) (button : Button) (productId : JsValue) : Run :=
  let originalText := button.textContent
  let busy : Button := { disabled := true, textContent := "Adding..." }
  let restored : Button := { busy with disabled := false, textContent := originalText }
  match addToCartTry w productId with
  | (w1, .normal _) => { world := w1, button := restored, completion := .normal () }
  | (w1, .throw e) =>
    { world := showToast (consoleError w1 "Error adding to cart:" e) "Error adding item" "error"
      button := restored
      completion := .normal () }

/-! ## Remove item -/

/-- The statements of `removeItem` that follow the successful `DELETE`: the row leaves the
document, a count refresh starts, the success notification is shown, and the reload is scheduled
when no `.cart-item` is left. -/
def removeItemDone (w : World) (cartItem : CartItem) : World :=
  let w3 := { w with rows := w.rows.filter (fun n => n != cartItem.node) }
  let w4 := showToast (updateCartCountStart w3) "Item removed from cart" "success"
  if w4.rows.isEmpty then
    { w4 with log := w4.log ++ [Event.setTimeout 1000 TimerTask.reload] }
  else w4

/-- The `try` block of `removeItem`. -/
def removeItemTry (w : World) (cartItem : CartItem) : World × Completion Unit :=
  match _fetchApi w "orders/current/" "GET" .null with
  | (w1, .throw e) => (w1, .throw e)
  | (w1, .normal orderResponse) =>
    if orderResponse.truthy && (orderResponse.prop "id").truthy then
      match toStr (orderResponse.prop "id") with
      | .throw e => (w1, .throw e)
      | .normal id =>
        match toStr cartItem.itemId with
        | .throw e => (w1, .throw e)
        | .normal itemId =>
          match _fetchApi w1 ("orders/" ++ id ++ "/remove_item/" ++ itemId ++ "/") "DELETE"
              .null with
          | (w2, .throw e) => (w2, .throw e)
          | (w2, .normal _) => (removeItemDone w2 cartItem, .normal ())
    else (w1, .normal ())

/-- The method `removeItem(event)`: `button` is `event.target`, `cartItem` is `button.closest('.cart-item')`,
`none` when the button has no enclosing row (reading `cartItem.dataset` then throws before
anything else happens). -/
def removeItem (w : World) (button : Button) (cartItem : Option CartItem) : Run :=
  match cartItem with
  | none => { world := w, button := button, completion := .throw .typeError }
  | some row =>
    let originalText := button.textContent
    let busy : Button := { disabled := true, textContent := "Removing..." }
    match removeItemTry w row with
    | (w1, .normal _) => { world := w1, button := busy, completion := .normal () }
    | (w1, .throw e) =>
      { world := showToast (consoleError w1 "Error removing item:" e) "Error removing item" "error"
        button := { busy with disabled := false, textContent := originalText }
        completion := .normal () }

/-! ## Checkout -/

/-- The `try` block of `checkout`. -/
def checkoutTry (w : World) : World × Completion Unit :=
  match _fetchApi w "orders/current/" "GET" .null with
  | (w1, .throw e) => (w1, .throw e)
  | (w1, .normal orderResponse) =>
    if orderResponse.truthy && (orderResponse.prop "id").truthy then
      match toStr (orderResponse.prop "id") with
      | .throw e => (w1, .throw e)
      | .normal id =>
        match _fetchApi w1 ("orders/" ++ id ++ "/checkout/") "POST"
            (.obj [("success_url", .str (w1.origin ++ "/order/success/")),
                   ("cancel_url", .str (w1.origin ++ "/cart/"))]) with
        | (w2, .throw e) => (w2, .throw e)
        | (w2, .normal response) =>
          if (optProp response "checkout_url").truthy then
            match toStr (optProp response "checkout_url") with
            | .throw e => (w2, .throw e)
            | .normal url => ({ w2 with log := w2.log ++ [Event.navigate url] }, .normal ())
          else (w2, .normal ())
    else (w1, .normal ())

/-- The method `checkout()`: the button is `document.getElementById('checkout-btn')`. -/
def checkout (w : World) : World × Completion Unit :=
  match w.checkoutBtn with
  | none => (w, .normal ())
  | some button =>
    let originalText := button.textContent
    let busy : Button := { disabled := true, textContent := "Processing..." }
    let restored : Button := { busy with disabled := false, textContent := originalText }
    match checkoutTry { w with checkoutBtn := some busy } with
    | (w1, .normal _) => ({ w1 with checkoutBtn := some restored }, .normal ())
    | (w1, .throw e) =>
      ({ showToast (consoleError w1 "Checkout error:" e) "Error during checkout" "error" with
          checkoutBtn := some restored }, .normal ())

/-! ## Reading the log -/

/-- The requests issued, oldest first. -/
def requests : List Event → List Request
  | [] => []
  | Event.request r :: rest => r :: requests rest
  | _ :: rest => requests rest

/-- The notifications shown, oldest first: message and severity. -/
def notifications : List Event → List (String × String)
  | [] => []
  | Event.toast m t :: rest => (m, t) :: notifications rest
  | _ :: rest => notifications rest

/-- The delays of the scheduled page reloads, oldest first. -/
def reloads : List Event → List Nat
  | [] => []
  | Event.setTimeout d TimerTask.reload :: rest => d :: reloads rest
  | _ :: rest => reloads rest

/-- The error boundary of an operation: relative to the log `before`, the log `after` shows
exactly one more notification, `message` with severity `error`, and exactly the requests
`issued`. -/
def ErrorBoundary (before after : List Event) (issued : List Request) (message : String) :
    Prop :=
  notifications after = notifications before ++ [(message, "error")] ∧
  requests after = requests before ++ issued

/-! ## Sample pages for the worked scenarios -/

/-- A freshly loaded page whose requests are answered by `server`: nothing logged, a cart-count
element showing `0`, the cart rows `rows`. -/
def page (server : Nat → Request → FetchResult) (rows : List Nat) : World :=
  { cookie := "a=1; csrftoken=XYZ; b=2"
    origin := "https://shop.example"
    server := server
    sent := 0
    log := []
    cartCount := some "0"
    rows := rows
    checkoutBtn := some { disabled := false, textContent := "Checkout" }
    pending := [] }

/-- The order of the scenarios: id 7, two of `p1` and one of `p2`. -/
def order7 : JsValue :=
  .obj [("id", .num 7),
        ("order_items", .arr [.obj [("item_id", .str "p1"), ("quantity", .num 2)],
                              .obj [("item_id", .str "p2"), ("quantity", .num 1)]])]

/-- A server that refuses every request with status 500 and a body that is not JSON. -/
def refusing : Nat → Request → FetchResult :=
  fun _ _ => .response 500 (.throw .syntaxError)

/-- A server that answers the first request with the order 7 and refuses every later one with
status 403 and the body `{"detail": "Forbidden"}`. -/
def refusingSecond : Nat → Request → FetchResult :=
  fun k _ =>
    if k = 0 then .response 200 (.normal order7)
    else .response 403 (.normal (.obj [("detail", .str "Forbidden")]))

/-- A server that answers every `DELETE` with status 204 and an empty body, and every other
request with the order 7. -/
def emptyDelete : Nat → Request → FetchResult :=
  fun _ r =>
    if r.method = "DELETE" then .response 204 (.throw .syntaxError)
    else .response 200 (.normal order7)

/-! ## Lemmas on splitting -/

section SplitLemmas

variable {α : Type} [DecidableEq α]

theorem cut_some_decomp (sep : List α) :
    ∀ (s a b : List α), cut sep s = some (a, b) → s = a ++ sep ++ b := by
  intro s
  induction s with
  | nil =>
    intro a b h
    unfold cut at h
    split_ifs at h with hs
    · simp at h
      simp [hs, h.1, h.2]
  | cons c cs ih =>
    intro a b h
    unfold cut at h
    split_ifs at h with hp
    · simp only [Option.some.injEq, Prod.mk.injEq] at h
      rw [List.isPrefixOf_iff_prefix] at hp
      obtain ⟨t, ht⟩ := hp
      rw [← h.1, ← h.2, ← ht]
      simp
    · cases hc : cut sep cs with
      | none => simp [hc] at h
      | some p =>
        obtain ⟨a', b'⟩ := p
        simp only [hc, Option.map_some', Option.some.injEq, Prod.mk.injEq] at h
        have := ih a' b' hc
        rw [← h.1, ← h.2, this]
        simp

theorem cut_none_no_decomp (sep : List α) :
    ∀ (s : List α), cut sep s = none → ∀ a b : List α, s ≠ a ++ sep ++ b := by
  intro s
  induction s with
  | nil =>
    intro h a b hab
    unfold cut at h
    split_ifs at h with hs
    have : sep = [] := by
      have h1 := congrArg List.length hab
      simp at h1
      exact List.eq_nil_of_length_eq_zero (by omega)
    exact hs this
  | cons c cs ih =>
    intro h a b hab
    unfold cut at h
    split_ifs at h with hp
    cases a with
    | nil =>
      apply hp
      rw [List.isPrefixOf_iff_prefix, hab]
      exact ⟨b, by simp⟩
    | cons x a' =>
      simp only [List.cons_append, List.cons.injEq] at hab
      have hn : cut sep cs = none := by
        cases hc : cut sep cs with
        | none => rfl
        | some p => simp [hc] at h
      exact ih hn a' b (by simpa using hab.2)

theorem cut_some_first (sep : List α) :
    ∀ (s a b a' b' : List α), cut sep s = some (a, b) → s = a' ++ sep ++ b' →
      a.length ≤ a'.length := by
  intro s
  induction s with
  | nil =>
    intro a b a' b' h _
    unfold cut at h
    split_ifs at h
    simp at h
    simp [h.1]
  | cons c cs ih =>
    intro a b a' b' h hab
    unfold cut at h
    split_ifs at h with hp
    · simp only [Option.some.injEq, Prod.mk.injEq] at h
      simp [← h.1]
    · cases hc : cut sep cs with
      | none => simp [hc] at h
      | some p =>
        obtain ⟨a1, b1⟩ := p
        simp only [hc, Option.map_some', Option.some.injEq, Prod.mk.injEq] at h
        cases a' with
        | nil =>
          exfalso
          apply hp
          rw [List.isPrefixOf_iff_prefix, hab]
          exact ⟨b', by simp⟩
        | cons x a2 =>
          simp only [List.cons_append, List.cons.injEq] at hab
          have := ih a1 b1 a2 b' hc (by simpa using hab.2)
          rw [← h.1]
          simp
          exact this

theorem cut_some_length_lt (sep : List α) (hsep : sep ≠ []) (s a b : List α)
    (h : cut sep s = some (a, b)) : b.length < s.length := by
  have hd := cut_some_decomp sep s a b h
  have hl : 0 < sep.length := List.length_pos.mpr hsep
  rw [hd]
  simp
  omega

theorem splitGo_fuel (sep : List α) (hsep : sep ≠ []) :
    ∀ (n m : Nat) (s : List α), s.length ≤ n → s.length ≤ m →
      splitGo sep n s = splitGo sep m s := by
  intro n
  induction n with
  | zero =>
    intro m s hn _
    have hs : s = [] := List.eq_nil_of_length_eq_zero (Nat.le_zero.mp hn)
    subst hs
    cases m with
    | zero => rfl
    | succ m => simp [splitGo, cut, hsep]
  | succ n ih =>
    intro m s hn hm
    cases m with
    | zero =>
      have hs : s = [] := List.eq_nil_of_length_eq_zero (Nat.le_zero.mp hm)
      subst hs
      simp [splitGo, cut, hsep]
    | succ m =>
      unfold splitGo
      cases hc : cut sep s with
      | none => rfl
      | some p =>
        obtain ⟨a, b⟩ := p
        have hlt := cut_some_length_lt sep hsep s a b hc
        simp only
        rw [ih m b (by omega) (by omega)]

theorem jsSplit_of_cut_none (sep s : List α) (h : cut sep s = none) :
    jsSplit sep s = [s] := by
  unfold jsSplit
  cases hl : s.length with
  | zero => rfl
  | succ n => simp [splitGo, h]

theorem jsSplit_of_cut_some (sep : List α) (hsep : sep ≠ []) (s a b : List α)
    (h : cut sep s = some (a, b)) : jsSplit sep s = a :: jsSplit sep b := by
  have hlt := cut_some_length_lt sep hsep s a b h
  unfold jsSplit
  cases hl : s.length with
  | zero => omega
  | succ n =>
    simp only [splitGo, h]
    rw [splitGo_fuel sep hsep n b.length b (by omega) (le_refl _)]

theorem jsSplit_length_pos (sep : List α) (hsep : sep ≠ []) (s : List α) :
    1 ≤ (jsSplit sep s).length := by
  cases hc : cut sep s with
  | none => simp [jsSplit_of_cut_none sep s hc]
  | some p =>
    obtain ⟨a, b⟩ := p
    simp [jsSplit_of_cut_some sep hsep s a b hc]

theorem countOccurrences_eq_zero_iff (sep : List α) :
    ∀ s : List α, countOccurrences sep s = 0 ↔ cut sep s = none := by
  intro s
  induction s with
  | nil =>
    unfold countOccurrences cut
    split_ifs <;> simp
  | cons c cs ih =>
    unfold countOccurrences cut
    split_ifs with hp
    · simp
    · simp [ih]

theorem countOccurrences_le_append (sep : List α) (x b : List α) :
    countOccurrences sep b ≤ countOccurrences sep (x ++ b) := by
  induction x with
  | nil => simp
  | cons c cs ih =>
    simp only [List.cons_append]
    conv_rhs => unfold countOccurrences
    omega

theorem countOccurrences_pos_of_decomp (sep a b : List α) :
    1 ≤ countOccurrences sep (a ++ sep ++ b) := by
  by_contra hlt
  have h0 : countOccurrences sep (a ++ sep ++ b) = 0 := by omega
  rw [countOccurrences_eq_zero_iff] at h0
  exact cut_none_no_decomp sep _ h0 a b rfl

theorem cut_of_single_occurrence (sep : List α) (hsep : sep ≠ []) :
    ∀ a b : List α, countOccurrences sep (a ++ sep ++ b) = 1 →
      cut sep (a ++ sep ++ b) = some (a, b) ∧ countOccurrences sep b = 0 := by
  intro a
  induction a with
  | nil =>
    intro b h
    obtain ⟨c, cs, hcs⟩ := List.exists_cons_of_ne_nil hsep
    have hform : sep ++ b = c :: (cs ++ b) := by rw [hcs]; rfl
    have hp : sep.isPrefixOf (c :: (cs ++ b)) = true := by
      rw [← hform, List.isPrefixOf_iff_prefix]
      exact ⟨b, rfl⟩
    have hb := countOccurrences_le_append sep cs b
    simp only [List.nil_append] at h ⊢
    rw [hform] at h ⊢
    unfold countOccurrences at h
    unfold cut
    rw [if_pos hp] at h ⊢
    refine ⟨?_, by omega⟩
    rw [← hform]
    simp
  | cons x a ih =>
    intro b h
    simp only [List.cons_append] at h ⊢
    have hpos := countOccurrences_pos_of_decomp sep a b
    unfold countOccurrences at h
    unfold cut
    split_ifs at h ⊢ with hp
    · omega
    · have h1 : countOccurrences sep (a ++ sep ++ b) = 1 := by omega
      obtain ⟨hc, hb⟩ := ih b h1
      rw [hc]
      exact ⟨rfl, hb⟩

theorem jsSplit_single_occurrence (sep : List α) (hsep : sep ≠ []) (a b : List α)
    (h : countOccurrences sep (a ++ sep ++ b) = 1) :
    jsSplit sep (a ++ sep ++ b) = [a, b] := by
  obtain ⟨hc, hb⟩ := cut_of_single_occurrence sep hsep a b h
  rw [jsSplit_of_cut_some sep hsep _ a b hc,
    jsSplit_of_cut_none sep b ((countOccurrences_eq_zero_iff sep b).mp hb)]

theorem cut_singleton_takeWhile (c : α) :
    ∀ s : List α,
      (cut [c] s = none ∧ s.takeWhile (fun x => decide (x ≠ c)) = s) ∨
      (∃ b, cut [c] s = some (s.takeWhile (fun x => decide (x ≠ c)), b)) := by
  intro s
  induction s with
  | nil => left; simp [cut]
  | cons x xs ih =>
    by_cases hx : x = c
    · right
      subst hx
      refine ⟨xs, ?_⟩
      simp [cut, List.isPrefixOf]
    · have hp : List.isPrefixOf [c] (x :: xs) = false := by
        simp [List.isPrefixOf, Ne.symm hx]
      rcases ih with ⟨hn, ht⟩ | ⟨b, hb⟩
      · left
        have hd : decide (x ≠ c) = true := by simpa using hx
        refine ⟨by simp [cut, hp, hn], ?_⟩
        rw [List.takeWhile_cons, hd]
        simp only [if_true, ht]
      · right
        have hd : decide (x ≠ c) = true := by simpa using hx
        refine ⟨b, ?_⟩
        rw [List.takeWhile_cons, hd]
        simp [cut, hp, hb]

theorem jsSplit_singleton_head (c : α) (s : List α) :
    (jsSplit [c] s).head? = some (s.takeWhile (fun x => decide (x ≠ c))) := by
  rcases cut_singleton_takeWhile c s with ⟨hn, ht⟩ | ⟨b, hb⟩
  · rw [jsSplit_of_cut_none _ _ hn, List.head?_cons, ht]
  · rw [jsSplit_of_cut_some _ (by simp) _ _ _ hb, List.head?_cons]

theorem jsSplit_length_ge_three (sep : List α) (hsep : sep ≠ []) (a b c : List α) :
    3 ≤ (jsSplit sep (a ++ sep ++ b ++ sep ++ c)).length := by
  cases hc : cut sep (a ++ sep ++ b ++ sep ++ c) with
  | none =>
    exact absurd (by simp) (cut_none_no_decomp sep _ hc a (b ++ sep ++ c))
  | some p =>
    obtain ⟨a0, b0⟩ := p
    have hd := cut_some_decomp sep _ a0 b0 hc
    have hf := cut_some_first sep _ a0 b0 a (b ++ sep ++ c) hc (by simp)
    -- the remainder `b0` still ends with `b ++ sep ++ c`
    have hsuf : ∃ x, b0 = x ++ sep ++ c := by
      have hlen := congrArg List.length hd
      simp at hlen
      have h1 : (a ++ sep ++ b) ++ (sep ++ c) = (a0 ++ sep) ++ b0 := by
        simpa using hd
      have h2 : (a0 ++ sep).length ≤ (a ++ sep ++ b).length := by
        simp; omega
      have hp1 : a0 ++ sep <+: (a ++ sep ++ b) ++ (sep ++ c) := by
        rw [h1]; exact List.prefix_append _ _
      have hp2 : a ++ sep ++ b <+: (a ++ sep ++ b) ++ (sep ++ c) := List.prefix_append _ _
      obtain ⟨t, ht⟩ : a0 ++ sep <+: a ++ sep ++ b :=
        List.prefix_of_prefix_length_le hp1 hp2 h2
      refine ⟨t, ?_⟩
      rw [← ht] at h1
      have h3 : (a0 ++ sep) ++ (t ++ (sep ++ c)) = (a0 ++ sep) ++ b0 := by
        simpa using h1
      have := List.append_cancel_left h3
      rw [← this]; simp
    obtain ⟨x, hx⟩ := hsuf
    rw [jsSplit_of_cut_some sep hsep _ a0 b0 hc]
    cases hc2 : cut sep b0 with
    | none => exact absurd hx (cut_none_no_decomp sep _ hc2 x c)
    | some q =>
      obtain ⟨a1, b1⟩ := q
      rw [jsSplit_of_cut_some sep hsep _ a1 b1 hc2]
      have := jsSplit_length_pos sep hsep b1
      simp only [List.length_cons]
      omega

end SplitLemmas

theorem delimiter_data_ne_nil (name : String) : ("; " ++ name ++ "=").data ≠ [] := by
  simp [String.data_append]

theorem split_of_ne_nil (s sep : String) (h : sep.data ≠ []) :
    split s sep = (jsSplit sep.data s.data).map String.mk := by
  simp [split, h]

theorem split_semicolon_head (p : String) :
    (split p ";").head? = some (String.mk (p.data.takeWhile (fun c => decide (c ≠ ';')))) := by
  rw [split_of_ne_nil p ";" (by decide)]
  have h := jsSplit_singleton_head ';' p.data
  have hd : (";" : String).data = [';'] := rfl
  rw [hd, List.head?_map, h]
  rfl

/-- C2: when `"; name="` occurs exactly once in `"; " + cookie`, `_getCookie` returns the text
after that occurrence up to, not including, the next `;` (or the end of the string); when it does
not occur, `_getCookie` returns `undefined`. -/
theorem getCookie_single_or_absent (cookie name : String) :
    (∀ pre post : String,
        "; " ++ cookie = pre ++ ("; " ++ name ++ "=") ++ post →
        occurrences ("; " ++ cookie) ("; " ++ name ++ "=") = 1 →
        _getCookie cookie name
          = some (String.mk (post.data.takeWhile (fun c => decide (c ≠ ';'))))) ∧
    (occurrences ("; " ++ cookie) ("; " ++ name ++ "=") = 0 →
        _getCookie cookie name = none) := by
  have hsep := delimiter_data_ne_nil name
  constructor
  · intro pre post hdec hocc
    have hdata : ("; " ++ cookie).data = pre.data ++ ("; " ++ name ++ "=").data ++ post.data := by
      rw [hdec]; simp [String.data_append]
    unfold occurrences at hocc
    rw [hdata] at hocc
    have hs := jsSplit_single_occurrence _ hsep _ _ hocc
    unfold _getCookie
    simp only []
    rw [split_of_ne_nil _ _ hsep, hdata, hs]
    simp only [List.map, List.length_cons, List.length_nil, if_true]
    show (split (String.mk post.data) ";").head? = _
    exact split_semicolon_head _
  · intro hocc
    unfold occurrences at hocc
    rw [countOccurrences_eq_zero_iff] at hocc
    unfold _getCookie
    simp only []
    rw [split_of_ne_nil _ _ hsep, jsSplit_of_cut_none _ _ hocc]
    simp

/-- Witness of C2: the cookie string `a=1; csrftoken=XYZ; b=2`. -/
theorem getCookie_single_or_absent_witness :
    _getCookie "a=1; csrftoken=XYZ; b=2" "csrftoken" = some "XYZ" ∧
    _getCookie "a=1; b=2" "csrftoken" = none :=
  ⟨(getCookie_single_or_absent "a=1; csrftoken=XYZ; b=2" "csrftoken").1 "; a=1" "XYZ; b=2"
      (by decide) (by decide),
   (getCookie_single_or_absent "a=1; b=2" "csrftoken").2 (by decide)⟩

/-- C10, as stated, fails: in `a=1; a=2` the cookie `a` is present (the delimiter `; a=` occurs
twice in `; a=1; a=2`), yet `_getCookie` returns `undefined`, not the first value `1`. -/
theorem getCookie_repeated_name_counterexample :
    occurrences ("; " ++ "a=1; a=2") ("; " ++ "a" ++ "=") = 2 ∧
    _getCookie "a=1; a=2" "a" = none ∧
    _getCookie "a=1; a=2" "a" ≠ some "1" := by
  decide

/-- C10, amended: a cookie that is present exactly once (`"; name="` occurs exactly once in
`"; " + cookie`) yields a defined value, the text following the `name=` delimiter up to the next
`;`; when the delimiter occurs at two disjoint places of `"; " + cookie`, `_getCookie` returns
`undefined`; in general `_getCookie` returns a defined value exactly when the text after the
first delimiter holds no further delimiter, and the value is then the one following the first
delimiter. -/
theorem getCookie_once_defined_twice_undefined (cookie name : String) :
    (∀ pre post : String,
        "; " ++ cookie = pre ++ ("; " ++ name ++ "=") ++ post →
        occurrences ("; " ++ cookie) ("; " ++ name ++ "=") = 1 →
        _getCookie cookie name
          = some (String.mk (post.data.takeWhile (fun ch => decide (ch ≠ ';'))))) ∧
    (∀ a b c : String,
        "; " ++ cookie = a ++ ("; " ++ name ++ "=") ++ b ++ ("; " ++ name ++ "=") ++ c →
        _getCookie cookie name = none) ∧
    (∀ v : String, _getCookie cookie name = some v ↔
        ∃ pre post : String,
          "; " ++ cookie = pre ++ ("; " ++ name ++ "=") ++ post ∧
          (∀ pre' post' : String, "; " ++ cookie = pre' ++ ("; " ++ name ++ "=") ++ post' →
            pre.length ≤ pre'.length) ∧
          occurrences post ("; " ++ name ++ "=") = 0 ∧
          v = String.mk (post.data.takeWhile (fun ch => decide (ch ≠ ';')))) := by
  have hsep := delimiter_data_ne_nil name
  refine ⟨?_, ?_, ?_⟩
  · intro pre post hdec hocc
    have hdata : ("; " ++ cookie).data = pre.data ++ ("; " ++ name ++ "=").data ++ post.data := by
      rw [hdec]; simp [String.data_append]
    unfold occurrences at hocc
    rw [hdata] at hocc
    have hs := jsSplit_single_occurrence _ hsep _ _ hocc
    unfold _getCookie
    simp only []
    rw [split_of_ne_nil _ _ hsep, hdata, hs]
    simp only [List.map, List.length_cons, List.length_nil, if_true]
    show (split (String.mk post.data) ";").head? = _
    exact split_semicolon_head _
  · intro a b c hdec
    have hdata : ("; " ++ cookie).data
        = a.data ++ ("; " ++ name ++ "=").data ++ b.data ++ ("; " ++ name ++ "=").data
            ++ c.data := by
      rw [hdec]; simp [String.data_append]
    have h3 := jsSplit_length_ge_three _ hsep a.data b.data c.data
    rw [← hdata] at h3
    unfold _getCookie
    simp only []
    rw [split_of_ne_nil _ _ hsep, if_neg]
    rw [List.length_map]
    omega
  · intro v
    constructor
    · intro hv
      unfold _getCookie at hv
      simp only [] at hv
      rw [split_of_ne_nil _ _ hsep] at hv
      cases hc : cut ("; " ++ name ++ "=").data ("; " ++ cookie).data with
      | none =>
        rw [jsSplit_of_cut_none _ _ hc] at hv
        simp at hv
      | some p =>
        obtain ⟨a, b⟩ := p
        rw [jsSplit_of_cut_some _ hsep _ a b hc] at hv
        cases hc2 : cut ("; " ++ name ++ "=").data b with
        | some q =>
          obtain ⟨a1, b1⟩ := q
          rw [jsSplit_of_cut_some _ hsep _ a1 b1 hc2] at hv
          have := jsSplit_length_pos _ hsep b1
          rw [if_neg] at hv
          · cases hv
          · simp only [List.map, List.length_cons, List.length_map]
            omega
        | none =>
          rw [jsSplit_of_cut_none _ _ hc2] at hv
          simp only [List.map, List.length_cons, List.length_nil, if_true] at hv
          have hh : (split (String.mk b) ";").head? = some v := hv
          rw [split_semicolon_head] at hh
          have hd := cut_some_decomp _ _ a b hc
          refine ⟨String.mk a, String.mk b, ?_, ?_, ?_, ?_⟩
          · apply String.ext
            rw [hd]; simp [String.data_append]
          · intro pre' post' hdec'
            have hdata : ("; " ++ cookie).data
                = pre'.data ++ ("; " ++ name ++ "=").data ++ post'.data := by
              rw [hdec']; simp [String.data_append]
            exact cut_some_first _ _ a b pre'.data post'.data hc hdata
          · exact (countOccurrences_eq_zero_iff _ b).mpr hc2
          · exact (Option.some.inj hh).symm
    · rintro ⟨pre, post, hdec, hfirst, hpost, hv⟩
      have hdata : ("; " ++ cookie).data
          = pre.data ++ ("; " ++ name ++ "=").data ++ post.data := by
        rw [hdec]; simp [String.data_append]
      cases hc : cut ("; " ++ name ++ "=").data ("; " ++ cookie).data with
      | none => exact absurd hdata (cut_none_no_decomp _ _ hc pre.data post.data)
      | some p =>
        obtain ⟨a, b⟩ := p
        have hd := cut_some_decomp _ _ a b hc
        have hle := cut_some_first _ _ a b pre.data post.data hc hdata
        have hge : pre.data.length ≤ a.length := by
          have hstr : "; " ++ cookie = String.mk a ++ ("; " ++ name ++ "=") ++ String.mk b := by
            apply String.ext
            rw [hd]; simp [String.data_append]
          exact hfirst (String.mk a) (String.mk b) hstr
        have heq : a ++ (("; " ++ name ++ "=").data ++ b)
            = pre.data ++ (("; " ++ name ++ "=").data ++ post.data) := by
          rw [← List.append_assoc, ← List.append_assoc, ← hd, ← hdata]
        obtain ⟨ha, hrest⟩ := List.append_inj heq (by omega)
        have hb : b = post.data := List.append_cancel_left hrest
        subst hb
        have hc2 : cut ("; " ++ name ++ "=").data post.data = none :=
          (countOccurrences_eq_zero_iff _ _).mp hpost
        unfold _getCookie
        simp only []
        rw [split_of_ne_nil _ _ hsep, jsSplit_of_cut_some _ hsep _ a post.data hc,
          jsSplit_of_cut_none _ _ hc2]
        simp only [List.map, List.length_cons, List.length_nil, if_true]
        rw [hv]
        show (split (String.mk post.data) ";").head? = _
        exact split_semicolon_head _

/-- Witness of the amended C10: a name present once gives its value, a repeated name gives
`undefined`, and the defined value `XYZ` follows the first delimiter. -/
theorem getCookie_once_defined_twice_undefined_witness :
    _getCookie "k=v; a=1" "a" = some "1" ∧
    _getCookie "a=1; a=2" "a" = none ∧
    ∃ pre post : String,
      "; " ++ "a=1; csrftoken=XYZ; b=2" = pre ++ ("; " ++ "csrftoken" ++ "=") ++ post ∧
      (∀ pre' post' : String,
        "; " ++ "a=1; csrftoken=XYZ; b=2" = pre' ++ ("; " ++ "csrftoken" ++ "=") ++ post' →
        pre.length ≤ pre'.length) ∧
      occurrences post ("; " ++ "csrftoken" ++ "=") = 0 ∧
      "XYZ" = String.mk (post.data.takeWhile (fun ch => decide (ch ≠ ';'))) :=
  ⟨(getCookie_once_defined_twice_undefined "k=v; a=1" "a").1 "; k=v" "1" (by decide) (by decide),
   (getCookie_once_defined_twice_undefined "a=1; a=2" "a").2.1 "" "1" "2" (by decide),
   ((getCookie_once_defined_twice_undefined "a=1; csrftoken=XYZ; b=2" "csrftoken").2.2 "XYZ").mp
      (by decide)⟩

/-! ## Transport -/

theorem isOk_false_of_not_2xx (status : Nat) (h : status < 200 ∨ 299 < status) :
    isOk status = false := by
  unfold isOk
  rcases h with h | h
  · have : ¬ 200 ≤ status := by omega
    simp [this]
  · have : ¬ status ≤ 299 := by omega
    simp [this]

theorem isOk_true_of_2xx (status : Nat) (h : 200 ≤ status ∧ status ≤ 299) :
    isOk status = true := by
  simp [isOk, h.1, h.2]

theorem fetchApi_snd (w : World) (endpoint method : String) (data : JsValue) :
    (_fetchApi w endpoint method data).2
      = (_fetchApiSettle (_fetchApiSend w endpoint method data).1 endpoint
          (w.server w.sent (buildRequest w endpoint method data))).2 := rfl

theorem fetchApi_normal_iff (w : World) (endpoint method : String) (data v : JsValue) :
    (_fetchApi w endpoint method data).2 = .normal v ↔
      ∃ status, (200 ≤ status ∧ status ≤ 299) ∧
        w.server w.sent (buildRequest w endpoint method data) = .response status (.normal v) := by
  rw [fetchApi_snd]
  cases hres : w.server w.sent (buildRequest w endpoint method data) with
  | rejected e => simp [_fetchApiSettle]
  | response status json =>
    by_cases hok : isOk status = true
    · have h2 : 200 ≤ status ∧ status ≤ 299 := by simpa [isOk] using hok
      simp only [_fetchApiSettle, hok, Bool.not_true, Bool.false_eq_true, if_false]
      constructor
      · intro h
        exact ⟨status, h2, by rw [h]⟩
      · rintro ⟨st, _, h⟩
        cases h
        rfl
    · have h2 : ¬ (200 ≤ status ∧ status ≤ 299) := by simpa [isOk] using hok
      simp only [_fetchApiSettle, hok, Bool.not_false, if_true]
      constructor
      · intro h
        cases h
      · rintro ⟨st, hst, h⟩
        cases h
        exact absurd hst h2

/-- C3: on a response whose status is outside 200..299, `_fetchApi` throws; the message of the
error is the `detail` of the parsed body when that is a non-empty string, and the text
`Request failed: ` followed by the status when the body does not parse. -/
theorem fetchApi_not_ok_raises (w : World) (endpoint method : String) (data : JsValue)
    (status : Nat) (json : Completion JsValue)
    (hres : w.server w.sent (buildRequest w endpoint method data) = .response status json)
    (hst : status < 200 ∨ 299 < status) :
    (∃ e, (_fetchApi w endpoint method data).2 = .throw e) ∧
    (∀ (fields : List (String × JsValue)) (d : String),
        json = .normal (.obj fields) → fields.lookup "detail" = some (.str d) → d ≠ "" →
        (_fetchApi w endpoint method data).2 = .throw (.error d)) ∧
    (∀ e, json = .throw e →
        (_fetchApi w endpoint method data).2
          = .throw (.error ("Request failed: " ++ toString status))) := by
  have hok := isOk_false_of_not_2xx status hst
  have hsnd : (_fetchApi w endpoint method data).2 = .throw (errorOf status json) := by
    rw [fetchApi_snd, hres]
    simp [_fetchApiSettle, hok]
  refine ⟨⟨_, hsnd⟩, ?_, ?_⟩
  · intro fields d hj hd hne
    rw [hsnd, hj]
    simp [errorOf, getProp, JsValue.isNullish, JsValue.prop, hd, JsValue.truthy, hne, toStr]
  · intro e hj
    rw [hsnd, hj]
    simp [errorOf, getProp, JsValue.isNullish, JsValue.prop, JsValue.truthy, toStr]

/-- Witness of C3: status 403 with body `{"detail": "Forbidden"}` raises `Forbidden`; status 500
with a body that is not JSON raises `Request failed: 500`. -/
theorem fetchApi_not_ok_raises_witness :
    (_fetchApi (page (fun _ _ => .response 403 (.normal (.obj [("detail", .str "Forbidden")]))) [])
        "orders/current/" "GET" .null).2 = .throw (.error "Forbidden") ∧
    (_fetchApi (page (fun _ _ => .response 500 (.throw .syntaxError)) [])
        "orders/7/add_item/" "POST" (.obj [("item_id", .str "p3"), ("quantity", .num 1)])).2
      = .throw (.error "Request failed: 500") :=
  ⟨(fetchApi_not_ok_raises _ _ _ _ 403 _ rfl (by decide)).2.1
      [("detail", .str "Forbidden")] "Forbidden" rfl rfl (by decide),
   (fetchApi_not_ok_raises _ _ _ _ 500 _ rfl (by decide)).2.2 .syntaxError rfl⟩

/-! ## Cart count -/

theorem bitLength_le (fuel : Nat) :
    ∀ (n x : Nat), x < 2 ^ n → bitLength fuel x ≤ n := by
  induction fuel with
  | zero => intro n x _; simp [bitLength]
  | succ fuel ih =>
    intro n x hx
    unfold bitLength
    split_ifs with h0
    · exact Nat.zero_le _
    · cases n with
      | zero => simp at hx; exact absurd hx h0
      | succ n =>
        have : x / 2 < 2 ^ n := by
          rw [Nat.pow_succ] at hx
          omega
        have := ih n (x / 2) this
        omega

theorem roundToNumber_safe (x : Int) (h : x.natAbs < 2 ^ 53) : roundToNumber x = .num x := by
  have hbig : ¬ (1024 < bitLength x.natAbs x.natAbs) := by
    have := bitLength_le x.natAbs 53 x.natAbs h
    omega
  unfold roundToNumber roundNat
  simp only [h, if_true, hbig, if_false]
  by_cases hneg : x < 0
  · simp only [hneg, if_true]
    congr 1
    omega
  · simp only [hneg, if_false]
    congr 1
    omega

theorem numberToString_safe (n : Int) (h : n.natAbs < 2 ^ 53) :
    numberToString n = toString n := by
  cases n with
  | ofNat m =>
    have hm : m < 2 ^ 53 := h
    simp only [numberToString, natToString, hm, if_true]
    rfl
  | negSucc m =>
    have hm : m + 1 < 2 ^ 53 := h
    simp only [numberToString, natToString, hm, if_true]
    rfl

theorem jsAdd_num (a b : Int) : jsAdd (.num a) (.num b) = .normal (roundToNumber (a + b)) := rfl

theorem safeSums_total (qs : List Int) :
    ∀ acc : Int, acc.natAbs < 2 ^ 53 → safeSums acc qs = true →
      (acc + qs.sum).natAbs < 2 ^ 53 := by
  induction qs with
  | nil => intro acc hacc _; simpa using hacc
  | cons q rest ih =>
    intro acc _ hs
    simp only [safeSums, Bool.and_eq_true, decide_eq_true_eq] at hs
    have := ih (acc + q) hs.1.2 hs.2
    rw [List.sum_cons, ← add_assoc]
    exact this

theorem sumQuantities_integers (items : List (List (String × JsValue) × Int))
    (hq : ∀ p ∈ items, p.1.lookup "quantity" = some (.num p.2)) :
    ∀ acc : Int, safeSums acc (items.map (fun p => p.2)) = true →
      sumQuantities (.num acc) (items.map (fun p => .obj p.1))
        = .normal (.num (acc + (items.map (fun p => p.2)).sum)) := by
  induction items with
  | nil => intro acc _; simp [sumQuantities]
  | cons p rest ih =>
    intro acc hs
    have hp := hq p (List.mem_cons_self _ _)
    have hrest := ih (fun q hqm => hq q (List.mem_cons_of_mem _ hqm))
    simp only [List.map_cons, safeSums, Bool.and_eq_true, decide_eq_true_eq] at hs
    simp only [List.map_cons, sumQuantities, getProp, JsValue.isNullish, JsValue.prop, hp,
      Option.getD_some, List.sum_cons]
    simp only [Bool.false_eq_true, if_false]
    rw [jsAdd_num, roundToNumber_safe _ hs.1.2]
    simp only []
    rw [hrest (acc + p.2) hs.2, add_assoc]

theorem updateCartCount_cartCount (w : World) (status : Nat) (response : JsValue)
    (hres : w.server w.sent (buildRequest w "orders/current/" "GET" .null)
      = .response status (.normal response))
    (hst : 200 ≤ status ∧ status ≤ 299) :
    (updateCartCount w).cartCount
      = (match updateCartCountTry
            { w with sent := w.sent + 1
                     log := w.log ++ [Event.request (buildRequest w "orders/current/" "GET" .null)]
                              ++ [Event.settled (.response status (.normal response))] }
            response with
          | (w2, _) => w2.cartCount) := by
  have hok := isOk_true_of_2xx status hst
  unfold updateCartCount updateCartCountFinish
  simp only [_fetchApiSend, hres, _fetchApiSettle, hok]
  simp only [Bool.not_true, Bool.false_eq_true, if_false]
  cases h : updateCartCountTry _ response with
  | mk w2 c =>
    cases c <;> simp [consoleError]

/-- C1, as stated, fails: quantities are added as doubles.  For the quantities
`9007199254740992` and `1` the display becomes `9007199254740992`, while their sum is
`9007199254740993`. -/
theorem updateCartCount_large_sum_counterexample :
    (updateCartCount (page (fun _ _ => .response 200 (.normal (.obj [("id", .num 7),
        ("order_items", .arr [.obj [("item_id", .str "p1"), ("quantity", .num 9007199254740992)],
                              .obj [("item_id", .str "p2"), ("quantity", .num 1)]])]))) [])).cartCount
      = some "9007199254740992" ∧
    toString ((9007199254740992 : Int) + 1) = "9007199254740993" := by
  constructor <;> rfl

/-- C1, amended: when the answer to `GET orders/current/` carries an `order_items` list whose
items have integer quantities, every quantity and every running sum being a safe integer
(absolute value below `2 ^ 53`), and the cart-count element exists, `updateCartCount` sets its
text to the sum of the quantities (`0` for the empty list); when the answer has no `order_items`,
the text is left as it was. -/
theorem updateCartCount_safe_sum (w : World) (status : Nat)
    (hst : 200 ≤ status ∧ status ≤ 299) :
    (∀ (fields : List (String × JsValue)) (items : List (List (String × JsValue) × Int))
        (old : String),
        w.server w.sent (buildRequest w "orders/current/" "GET" .null)
          = .response status (.normal (.obj fields)) →
        fields.lookup "order_items" = some (.arr (items.map (fun p => .obj p.1))) →
        (∀ p ∈ items, p.1.lookup "quantity" = some (.num p.2)) →
        safeSums 0 (items.map (fun p => p.2)) = true →
        w.cartCount = some old →
        (updateCartCount w).cartCount = some (toString (items.map (fun p => p.2)).sum)) ∧
    (∀ response : JsValue,
        w.server w.sent (buildRequest w "orders/current/" "GET" .null)
          = .response status (.normal response) →
        optProp response "order_items" = .undefined →
        (updateCartCount w).cartCount = w.cartCount) := by
  constructor
  · intro fields items old hres hitems hq hsafe hold
    rw [updateCartCount_cartCount w status _ hres hst]
    have hsum := sumQuantities_integers items hq 0 hsafe
    have htot := safeSums_total (items.map (fun p => p.2)) 0 (by decide) hsafe
    rw [zero_add] at hsum htot
    simp only [updateCartCountTry, optProp, getProp, JsValue.isNullish, JsValue.prop, hitems,
      Option.getD_some, JsValue.truthy, reduceQuantities, hold]
    simp only [Bool.false_eq_true, if_false, if_true]
    rw [hsum]
    simp only [toStr, numberToString_safe _ htot]
  · intro response hres hno
    rw [updateCartCount_cartCount w status _ hres hst]
    simp [updateCartCountTry, hno, JsValue.truthy]

/-- Witness of the amended C1: the order with quantities 2 and 1 makes the display `3`, and the
answer `null` leaves the display `0`. -/
theorem updateCartCount_safe_sum_witness :
    (updateCartCount (page (fun _ _ => .response 200 (.normal order7)) [])).cartCount = some "3" ∧
    (updateCartCount (page (fun _ _ => .response 200 (.normal .null)) [])).cartCount = some "0" :=
  ⟨(updateCartCount_safe_sum (page (fun _ _ => .response 200 (.normal order7)) []) 200
      (by decide)).1
      [("id", .num 7),
       ("order_items", .arr [.obj [("item_id", .str "p1"), ("quantity", .num 2)],
                             .obj [("item_id", .str "p2"), ("quantity", .num 1)]])]
      [([("item_id", .str "p1"), ("quantity", .num 2)], 2),
       ([("item_id", .str "p2"), ("quantity", .num 1)], 1)] "0" rfl rfl
      (by intro p hp; simp at hp; rcases hp with rfl | rfl <;> rfl) (by decide) rfl,
   (updateCartCount_safe_sum (page (fun _ _ => .response 200 (.normal .null)) []) 200
      (by decide)).2 .null rfl rfl⟩

/-! ## Logs -/

theorem requests_append (a b : List Event) : requests (a ++ b) = requests a ++ requests b := by
  induction a with
  | nil => rfl
  | cons x xs ih => cases x <;> simp [requests, ih]

theorem notifications_append (a b : List Event) :
    notifications (a ++ b) = notifications a ++ notifications b := by
  induction a with
  | nil => rfl
  | cons x xs ih => cases x <;> simp [notifications, ih]

theorem reloads_append (a b : List Event) : reloads (a ++ b) = reloads a ++ reloads b := by
  induction a with
  | nil => rfl
  | cons x xs ih =>
    cases x with
    | setTimeout d t => cases t <;> simp [reloads, ih]
    | _ => simp [reloads, ih]

/-- What a transport call does to the page: one more request sent, and the log extended by the
request, the mark of its settlement and, on failure, diagnostic output only. -/
theorem fetchApi_shape (w : World) (endpoint method : String) (data : JsValue) :
    ∃ extra : List Event,
      (_fetchApi w endpoint method data).1
        = { w with
            sent := w.sent + 1
            log := w.log ++ (Event.request (buildRequest w endpoint method data)
              :: Event.settled (w.server w.sent (buildRequest w endpoint method data))
              :: extra) } ∧
      requests extra = [] ∧ notifications extra = [] ∧ reloads extra = [] ∧
      (∀ v, (_fetchApi w endpoint method data).2 = .normal v → extra = []) := by
  unfold _fetchApi _fetchApiSend
  simp only []
  cases hres : w.server w.sent (buildRequest w endpoint method data) with
  | rejected e =>
    refine ⟨[Event.consoleError ("API Error (" ++ endpoint ++ "):") e], ?_, rfl, rfl, rfl, ?_⟩
    · simp [_fetchApiSettle, consoleError]
    · intro v hv
      simp [_fetchApiSettle] at hv
  | response status json =>
    by_cases hok : isOk status = true
    · refine ⟨[], ?_, rfl, rfl, rfl, fun _ _ => rfl⟩
      simp [_fetchApiSettle, hok]
    · refine ⟨[Event.consoleError ("API Error (" ++ endpoint ++ "):") (errorOf status json)],
        ?_, rfl, rfl, rfl, ?_⟩
      · simp [_fetchApiSettle, hok, consoleError]
      · intro v hv
        simp [_fetchApiSettle, hok] at hv

theorem buildRequest_congr (w w1 : World) (h : w1.cookie = w.cookie) (endpoint method : String)
    (data : JsValue) : buildRequest w1 endpoint method data = buildRequest w endpoint method data := by
  simp [buildRequest, h]

theorem truthy_of_prop_truthy (r : JsValue) (key : String) (h : (r.prop key).truthy = true) :
    r.truthy = true := by
  cases r <;> simp_all [JsValue.prop, JsValue.truthy]

theorem fetchApi_rows (w : World) (endpoint method : String) (data : JsValue) :
    (_fetchApi w endpoint method data).1.rows = w.rows := by
  obtain ⟨x, hw, -⟩ := fetchApi_shape w endpoint method data
  rw [hw]

theorem fetchApi_cookie (w : World) (endpoint method : String) (data : JsValue) :
    (_fetchApi w endpoint method data).1.cookie = w.cookie := by
  obtain ⟨x, hw, -⟩ := fetchApi_shape w endpoint method data
  rw [hw]

theorem fetchApi_origin (w : World) (endpoint method : String) (data : JsValue) :
    (_fetchApi w endpoint method data).1.origin = w.origin := by
  obtain ⟨x, hw, -⟩ := fetchApi_shape w endpoint method data
  rw [hw]

theorem fetchApi_requests (w : World) (endpoint method : String) (data : JsValue) :
    requests (_fetchApi w endpoint method data).1.log
      = requests w.log ++ [buildRequest w endpoint method data] := by
  obtain ⟨x, hw, hr, -⟩ := fetchApi_shape w endpoint method data
  rw [hw]
  simp [requests_append, requests, hr]

theorem fetchApi_notifications (w : World) (endpoint method : String) (data : JsValue) :
    notifications (_fetchApi w endpoint method data).1.log = notifications w.log := by
  obtain ⟨x, hw, -, hn, -⟩ := fetchApi_shape w endpoint method data
  rw [hw]
  simp [notifications_append, notifications, hn]

theorem fetchApi_reloads (w : World) (endpoint method : String) (data : JsValue) :
    reloads (_fetchApi w endpoint method data).1.log = reloads w.log := by
  obtain ⟨x, hw, -, -, hl, -⟩ := fetchApi_shape w endpoint method data
  rw [hw]
  simp [reloads_append, reloads, hl]

/-! ## The `try` blocks, path by path -/

theorem addToCartTry_first_raises (w : World) (p : JsValue) (e : JsError)
    (h1 : (_fetchApi w "orders/current/" "GET" .null).2 = .throw e) :
    addToCartTry w p = ((_fetchApi w "orders/current/" "GET" .null).1, .throw e) := by
  unfold addToCartTry
  cases hfo : _fetchApi w "orders/current/" "GET" .null with
  | mk w1 c =>
    rw [hfo] at h1
    simp only at h1
    subst h1
    rfl

theorem addToCartTry_no_id (w : World) (p r : JsValue)
    (h1 : (_fetchApi w "orders/current/" "GET" .null).2 = .normal r)
    (hid : (r.prop "id").truthy = false) :
    addToCartTry w p = ((_fetchApi w "orders/current/" "GET" .null).1, .normal ()) := by
  unfold addToCartTry
  cases hfo : _fetchApi w "orders/current/" "GET" .null with
  | mk w1 c =>
    rw [hfo] at h1
    simp only at h1
    subst h1
    simp [hid]

theorem addToCartTry_second_raises (w : World) (p r : JsValue) (id : String) (e : JsError)
    (h1 : (_fetchApi w "orders/current/" "GET" .null).2 = .normal r)
    (hid : (r.prop "id").truthy = true) (hstr : toStr (r.prop "id") = .normal id)
    (h2 : (_fetchApi (_fetchApi w "orders/current/" "GET" .null).1
            ("orders/" ++ id ++ "/add_item/") "POST"
            (.obj [("item_id", p), ("quantity", .num 1)])).2 = .throw e) :
    addToCartTry w p
      = ((_fetchApi (_fetchApi w "orders/current/" "GET" .null).1
            ("orders/" ++ id ++ "/add_item/") "POST"
            (.obj [("item_id", p), ("quantity", .num 1)])).1, .throw e) := by
  have hr := truthy_of_prop_truthy r "id" hid
  unfold addToCartTry
  cases hfo : _fetchApi w "orders/current/" "GET" .null with
  | mk w1 c =>
    rw [hfo] at h1 h2
    simp only at h1 h2
    subst h1
    simp only [hr, hid, Bool.and_self, if_true, hstr]
    cases hso : _fetchApi w1 ("orders/" ++ id ++ "/add_item/") "POST"
        (.obj [("item_id", p), ("quantity", .num 1)]) with
    | mk w2 c2 =>
      rw [hso] at h2
      simp only at h2
      subst h2
      rfl

theorem addToCartTry_success (w : World) (p r v : JsValue) (id : String)
    (h1 : (_fetchApi w "orders/current/" "GET" .null).2 = .normal r)
    (hid : (r.prop "id").truthy = true) (hstr : toStr (r.prop "id") = .normal id)
    (h2 : (_fetchApi (_fetchApi w "orders/current/" "GET" .null).1
            ("orders/" ++ id ++ "/add_item/") "POST"
            (.obj [("item_id", p), ("quantity", .num 1)])).2 = .normal v) :
    addToCartTry w p
      = (updateCartCountStart (showToast
            (_fetchApi (_fetchApi w "orders/current/" "GET" .null).1
              ("orders/" ++ id ++ "/add_item/") "POST"
              (.obj [("item_id", p), ("quantity", .num 1)])).1
            "Item added to cart" "success"), .normal ()) := by
  have hr := truthy_of_prop_truthy r "id" hid
  unfold addToCartTry
  cases hfo : _fetchApi w "orders/current/" "GET" .null with
  | mk w1 c =>
    rw [hfo] at h1 h2
    simp only at h1 h2
    subst h1
    simp only [hr, hid, Bool.and_self, if_true, hstr]
    cases hso : _fetchApi w1 ("orders/" ++ id ++ "/add_item/") "POST"
        (.obj [("item_id", p), ("quantity", .num 1)]) with
    | mk w2 c2 =>
      rw [hso] at h2
      simp only at h2
      subst h2
      rfl

/-! ## Add to cart -/

/-- C4: when `GET orders/current/` returns an order whose id `n` is present and the add call
succeeds, `addToCart` issues the GET, observes its answer, issues
`POST orders/{n}/add_item/` with body `{item_id: p, quantity: 1}`, observes its answer, shows one
success notification and then starts exactly one count refresh, a fresh `GET orders/current/`. -/
theorem addToCart_success_trace (w : World) (button : Button) (p n r v : JsValue) (id : String)
    (h1 : (_fetchApi w "orders/current/" "GET" .null).2 = .normal r)
    (hn : r.prop "id" = n) (hid : n.truthy = true) (hstr : toStr n = .normal id)
    (h2 : (_fetchApi (_fetchApi w "orders/current/" "GET" .null).1
            ("orders/" ++ id ++ "/add_item/") "POST"
            (.obj [("item_id", p), ("quantity", .num 1)])).2 = .normal v) :
    (addToCart w button p).world.log
      = w.log ++
        [Event.request (buildRequest w "orders/current/" "GET" .null),
         Event.settled (w.server w.sent (buildRequest w "orders/current/" "GET" .null)),
         Event.request (buildRequest w ("orders/" ++ id ++ "/add_item/") "POST"
            (.obj [("item_id", p), ("quantity", .num 1)])),
         Event.settled (w.server (w.sent + 1)
            (buildRequest w ("orders/" ++ id ++ "/add_item/") "POST"
              (.obj [("item_id", p), ("quantity", .num 1)]))),
         Event.toast "Item added to cart" "success",
         Event.setTimeout 10 TimerTask.toastShow,
         Event.request (buildRequest w "orders/current/" "GET" .null)] ∧
    (buildRequest w ("orders/" ++ id ++ "/add_item/") "POST"
        (.obj [("item_id", p), ("quantity", .num 1)])).url
      = "/api/" ++ ("orders/" ++ id ++ "/add_item/") ∧
    (buildRequest w ("orders/" ++ id ++ "/add_item/") "POST"
        (.obj [("item_id", p), ("quantity", .num 1)])).method = "POST" ∧
    (buildRequest w ("orders/" ++ id ++ "/add_item/") "POST"
        (.obj [("item_id", p), ("quantity", .num 1)])).body
      = some (.obj [("item_id", p), ("quantity", .num 1)]) ∧
    (buildRequest w "orders/current/" "GET" .null).url = "/api/orders/current/" ∧
    (buildRequest w "orders/current/" "GET" .null).method = "GET" ∧
    (buildRequest w "orders/current/" "GET" .null).body = none ∧
    (addToCart w button p).world.pending
      = w.pending ++ [w.server (w.sent + 2) (buildRequest w "orders/current/" "GET" .null)] := by
  subst hn
  have htry := addToCartTry_success w p r v id h1 hid hstr h2
  obtain ⟨x1, hw1, -, -, -, hx1⟩ := fetchApi_shape w "orders/current/" "GET" .null
  have hx1 := hx1 r h1
  subst hx1
  obtain ⟨x2, hw2, -, -, -, hx2⟩ := fetchApi_shape (_fetchApi w "orders/current/" "GET" .null).1
    ("orders/" ++ id ++ "/add_item/") "POST" (.obj [("item_id", p), ("quantity", .num 1)])
  have hx2 := hx2 v h2
  subst hx2
  clear h1 h2
  generalize (_fetchApi (_fetchApi w "orders/current/" "GET" .null).1
    ("orders/" ++ id ++ "/add_item/") "POST" (.obj [("item_id", p), ("quantity", .num 1)])).1
    = W2 at htry hw2
  generalize (_fetchApi w "orders/current/" "GET" .null).1 = W1 at hw1 hw2
  subst hw1
  subst hw2
  refine ⟨?_, rfl, rfl, rfl, rfl, rfl, rfl, ?_⟩
  · unfold addToCart
    simp only [htry]
    simp [updateCartCountStart, _fetchApiSend, showToast, buildRequest]
  · unfold addToCart
    simp only [htry]
    simp [updateCartCountStart, _fetchApiSend, showToast, buildRequest]

/-- Witness of C4: product `p3` with order id 7. -/
theorem addToCart_success_trace_witness :
    (requests (addToCart (page (fun _ _ => .response 200 (.normal order7)) [])
        { disabled := false, textContent := "Add to Cart" } (.str "p3")).world.log).map
        (fun q => (q.method, q.url))
      = [("GET", "/api/orders/current/"), ("POST", "/api/orders/7/add_item/"),
         ("GET", "/api/orders/current/")] ∧
    notifications (addToCart (page (fun _ _ => .response 200 (.normal order7)) [])
        { disabled := false, textContent := "Add to Cart" } (.str "p3")).world.log
      = [("Item added to cart", "success")] := by
  have h := addToCart_success_trace (page (fun _ _ => .response 200 (.normal order7)) [])
    { disabled := false, textContent := "Add to Cart" } (.str "p3") (.num 7) order7 order7 "7"
    rfl rfl rfl rfl rfl
  exact ⟨by rw [h.1]; rfl, by rw [h.1]; rfl⟩

/-- C5: whatever the server answers, when `addToCart` or `checkout` completes the triggering
button is enabled and carries the label it had when the operation started, and the operation
completes normally. -/
theorem buttons_restored (w : World) :
    (∀ (button : Button) (p : JsValue),
        (addToCart w button p).button.disabled = false ∧
        (addToCart w button p).button.textContent = button.textContent ∧
        (addToCart w button p).completion = .normal ()) ∧
    (∀ btn : Button, w.checkoutBtn = some btn →
        (checkout w).1.checkoutBtn = some { disabled := false, textContent := btn.textContent } ∧
        (checkout w).2 = .normal ()) := by
  constructor
  · intro button p
    unfold addToCart
    cases addToCartTry w p with
    | mk w1 c => cases c <;> exact ⟨rfl, rfl, rfl⟩
  · intro btn hbtn
    unfold checkout
    rw [hbtn]
    simp only []
    cases checkoutTry { w with checkoutBtn := some { disabled := true, textContent := "Processing..." } } with
    | mk w1 c => cases c <;> exact ⟨rfl, rfl⟩

/-- Witness of C5: the checkout button of the sample page, with a server that refuses everything. -/
theorem buttons_restored_witness :
    (checkout (page (fun _ _ => .response 500 (.throw .syntaxError)) [])).1.checkoutBtn
      = some { disabled := false, textContent := "Checkout" } ∧
    (checkout (page (fun _ _ => .response 500 (.throw .syntaxError)) [])).2 = .normal () :=
  (buttons_restored (page (fun _ _ => .response 500 (.throw .syntaxError)) [])).2
    { disabled := false, textContent := "Checkout" } rfl

/-- C6: when `GET orders/current/` succeeds but yields no order id (the answer is `null`, or its
`id` is missing, `null`, empty or zero), `addToCart` does nothing more: the log grows by that one
request and its settlement, so no notification is shown, no `add_item` request and no count
refresh is issued. -/
theorem addToCart_absent_order (w : World) (button : Button) (p r : JsValue)
    (h1 : (_fetchApi w "orders/current/" "GET" .null).2 = .normal r)
    (hno : r = .null ∨ r.prop "id" = .undefined ∨ r.prop "id" = .null ∨
      r.prop "id" = .str "" ∨ r.prop "id" = .num 0) :
    (addToCart w button p).world.log
      = w.log ++
        [Event.request (buildRequest w "orders/current/" "GET" .null),
         Event.settled (w.server w.sent (buildRequest w "orders/current/" "GET" .null))] ∧
    notifications (addToCart w button p).world.log = notifications w.log ∧
    requests (addToCart w button p).world.log
      = requests w.log ++ [buildRequest w "orders/current/" "GET" .null] ∧
    (addToCart w button p).world.pending = w.pending ∧
    (addToCart w button p).world.sent = w.sent + 1 := by
  have hid : (r.prop "id").truthy = false := by
    rcases hno with h | h | h | h | h
    · subst h; rfl
    all_goals rw [h]; rfl
  have htry := addToCartTry_no_id w p r h1 hid
  obtain ⟨x1, hw1, -, -, -, hx1⟩ := fetchApi_shape w "orders/current/" "GET" .null
  have hx1 := hx1 r h1
  subst hx1
  have hlog : (addToCart w button p).world
      = { w with
          sent := w.sent + 1
          log := w.log ++
            [Event.request (buildRequest w "orders/current/" "GET" .null),
             Event.settled (w.server w.sent (buildRequest w "orders/current/" "GET" .null))] } := by
    unfold addToCart
    simp only [htry]
    exact hw1
  rw [hlog]
  refine ⟨rfl, ?_, ?_, rfl, rfl⟩
  · simp [notifications_append, notifications]
  · simp [requests_append, requests]

/-- Witness of C6: the server answers `null`, and an order without id. -/
theorem addToCart_absent_order_witness :
    notifications (addToCart (page (fun _ _ => .response 200 (.normal .null)) [])
        { disabled := false, textContent := "Add to Cart" } (.str "p3")).world.log = [] ∧
    (requests (addToCart (page (fun _ _ => .response 200 (.normal (.obj []))) [])
        { disabled := false, textContent := "Add to Cart" } (.str "p3")).world.log).map
        (fun q => (q.method, q.url)) = [("GET", "/api/orders/current/")] := by
  have h := addToCart_absent_order (page (fun _ _ => .response 200 (.normal .null)) [])
    { disabled := false, textContent := "Add to Cart" } (.str "p3") .null rfl (Or.inl rfl)
  have h' := addToCart_absent_order (page (fun _ _ => .response 200 (.normal (.obj []))) [])
    { disabled := false, textContent := "Add to Cart" } (.str "p3") (.obj []) rfl
    (Or.inr (Or.inl rfl))
  exact ⟨by rw [h.2.1]; rfl, by rw [h'.2.2.1]; rfl⟩

/-! ## Remove item -/

theorem removeItemTry_first_raises (w : World) (row : CartItem) (e : JsError)
    (h1 : (_fetchApi w "orders/current/" "GET" .null).2 = .throw e) :
    removeItemTry w row = ((_fetchApi w "orders/current/" "GET" .null).1, .throw e) := by
  unfold removeItemTry
  cases hfo : _fetchApi w "orders/current/" "GET" .null with
  | mk w1 c =>
    rw [hfo] at h1
    simp only at h1
    subst h1
    rfl

theorem removeItemTry_second_raises (w : World) (row : CartItem) (r : JsValue)
    (id item : String) (e : JsError)
    (h1 : (_fetchApi w "orders/current/" "GET" .null).2 = .normal r)
    (hid : (r.prop "id").truthy = true) (hstr : toStr (r.prop "id") = .normal id)
    (hitem : toStr row.itemId = .normal item)
    (h2 : (_fetchApi (_fetchApi w "orders/current/" "GET" .null).1
            ("orders/" ++ id ++ "/remove_item/" ++ item ++ "/") "DELETE" .null).2 = .throw e) :
    removeItemTry w row
      = ((_fetchApi (_fetchApi w "orders/current/" "GET" .null).1
            ("orders/" ++ id ++ "/remove_item/" ++ item ++ "/") "DELETE" .null).1, .throw e) := by
  have hr := truthy_of_prop_truthy r "id" hid
  unfold removeItemTry
  cases hfo : _fetchApi w "orders/current/" "GET" .null with
  | mk w1 c =>
    rw [hfo] at h1 h2
    simp only at h1 h2
    subst h1
    simp only [hr, hid, Bool.and_self, if_true, hstr, hitem]
    cases hso : _fetchApi w1 ("orders/" ++ id ++ "/remove_item/" ++ item ++ "/") "DELETE"
        .null with
    | mk w2 c2 =>
      rw [hso] at h2
      simp only at h2
      subst h2
      rfl

theorem removeItemTry_success (w : World) (row : CartItem) (r v : JsValue) (id item : String)
    (h1 : (_fetchApi w "orders/current/" "GET" .null).2 = .normal r)
    (hid : (r.prop "id").truthy = true) (hstr : toStr (r.prop "id") = .normal id)
    (hitem : toStr row.itemId = .normal item)
    (h2 : (_fetchApi (_fetchApi w "orders/current/" "GET" .null).1
            ("orders/" ++ id ++ "/remove_item/" ++ item ++ "/") "DELETE" .null).2 = .normal v) :
    removeItemTry w row
      = (removeItemDone (_fetchApi (_fetchApi w "orders/current/" "GET" .null).1
            ("orders/" ++ id ++ "/remove_item/" ++ item ++ "/") "DELETE" .null).1 row,
          .normal ()) := by
  have hr := truthy_of_prop_truthy r "id" hid
  unfold removeItemTry
  cases hfo : _fetchApi w "orders/current/" "GET" .null with
  | mk w1 c =>
    rw [hfo] at h1 h2
    simp only at h1 h2
    subst h1
    simp only [hr, hid, Bool.and_self, if_true, hstr, hitem]
    cases hso : _fetchApi w1 ("orders/" ++ id ++ "/remove_item/" ++ item ++ "/") "DELETE"
        .null with
    | mk w2 c2 =>
      rw [hso] at h2
      simp only at h2
      subst h2
      rfl

theorem removeItemDone_rows (w : World) (row : CartItem) :
    (removeItemDone w row).rows = w.rows.filter (fun n => n != row.node) := by
  unfold removeItemDone
  simp only [updateCartCountStart, _fetchApiSend, showToast]
  split_ifs <;> rfl

theorem removeItemDone_reloads (w : World) (row : CartItem) :
    reloads (removeItemDone w row).log
      = reloads w.log ++
        (if w.rows.filter (fun n => n != row.node) = [] then [1000] else []) := by
  unfold removeItemDone
  simp only [updateCartCountStart, _fetchApiSend, showToast]
  by_cases hempty : w.rows.filter (fun n => n != row.node) = []
  · simp [hempty, reloads_append, reloads]
  · have hne : (w.rows.filter (fun n => n != row.node)).isEmpty = false := by
      simpa [List.isEmpty_iff] using hempty
    simp only [hne, hempty, if_false, Bool.false_eq_true]
    simp [reloads_append, reloads]

theorem removeItem_world_after_delete (w : World) (button : Button) (row : CartItem)
    (r v : JsValue) (id item : String)
    (h1 : (_fetchApi w "orders/current/" "GET" .null).2 = .normal r)
    (hid : (r.prop "id").truthy = true) (hstr : toStr (r.prop "id") = .normal id)
    (hitem : toStr row.itemId = .normal item)
    (h2 : (_fetchApi (_fetchApi w "orders/current/" "GET" .null).1
            ("orders/" ++ id ++ "/remove_item/" ++ item ++ "/") "DELETE" .null).2 = .normal v) :
    (removeItem w button (some row)).world
      = removeItemDone (_fetchApi (_fetchApi w "orders/current/" "GET" .null).1
          ("orders/" ++ id ++ "/remove_item/" ++ item ++ "/") "DELETE" .null).1 row := by
  have htry := removeItemTry_success w row r v id item h1 hid hstr hitem h2
  unfold removeItem
  simp only [htry]

theorem removeItem_rows_after_delete (w : World) (button : Button) (row : CartItem)
    (r v : JsValue) (id item : String)
    (h1 : (_fetchApi w "orders/current/" "GET" .null).2 = .normal r)
    (hid : (r.prop "id").truthy = true) (hstr : toStr (r.prop "id") = .normal id)
    (hitem : toStr row.itemId = .normal item)
    (h2 : (_fetchApi (_fetchApi w "orders/current/" "GET" .null).1
            ("orders/" ++ id ++ "/remove_item/" ++ item ++ "/") "DELETE" .null).2 = .normal v) :
    (removeItem w button (some row)).world.rows = w.rows.filter (fun n => n != row.node) := by
  rw [removeItem_world_after_delete w button row r v id item h1 hid hstr hitem h2,
    removeItemDone_rows, fetchApi_rows, fetchApi_rows]

/-- C7, as stated, fails when the `DELETE` succeeds with an empty body: the server answers 204,
`response.json()` rejects, and `removeItem` takes its error path.  The only row stays in the
document, no reload is scheduled and the error notification is shown, although both requests were
issued and answered with a success status. -/
theorem removeItem_empty_delete_counterexample :
    (removeItem (page emptyDelete [1]) { disabled := false, textContent := "Remove" }
        (some { node := 1, itemId := .str "p1" })).world.rows = [1] ∧
    reloads (removeItem (page emptyDelete [1]) { disabled := false, textContent := "Remove" }
        (some { node := 1, itemId := .str "p1" })).world.log = [] ∧
    notifications (removeItem (page emptyDelete [1])
        { disabled := false, textContent := "Remove" }
        (some { node := 1, itemId := .str "p1" })).world.log
      = [("Error removing item", "error")] ∧
    (requests (removeItem (page emptyDelete [1]) { disabled := false, textContent := "Remove" }
        (some { node := 1, itemId := .str "p1" })).world.log).map (fun q => (q.method, q.url))
      = [("GET", "/api/orders/current/"), ("DELETE", "/api/orders/7/remove_item/p1/")] := by
  refine ⟨?_, ?_, ?_, ?_⟩ <;> rfl

/-- C7, amended: when the order resolves and the `DELETE` call resolves (it is answered with a
status in 200..299 and a body that parses as JSON), the clicked row is no longer in the
document, and the reloads scheduled by the operation are: one, with delay 1000, when no cart row
is left in the document, and none when a row is left. -/
theorem removeItem_row_and_reload (w : World) (button : Button) (row : CartItem) (r v : JsValue)
    (id item : String)
    (h1 : (_fetchApi w "orders/current/" "GET" .null).2 = .normal r)
    (hid : (r.prop "id").truthy = true) (hstr : toStr (r.prop "id") = .normal id)
    (hitem : toStr row.itemId = .normal item)
    (h2 : (_fetchApi (_fetchApi w "orders/current/" "GET" .null).1
            ("orders/" ++ id ++ "/remove_item/" ++ item ++ "/") "DELETE" .null).2 = .normal v) :
    (removeItem w button (some row)).world.rows = w.rows.filter (fun n => n != row.node) ∧
    row.node ∉ (removeItem w button (some row)).world.rows ∧
    reloads (removeItem w button (some row)).world.log
      = reloads w.log ++
        (if (removeItem w button (some row)).world.rows = [] then [1000] else []) ∧
    (removeItem w button (some row)).completion = .normal () := by
  have htry := removeItemTry_success w row r v id item h1 hid hstr hitem h2
  have hworld := removeItem_world_after_delete w button row r v id item h1 hid hstr hitem h2
  have hrows := removeItem_rows_after_delete w button row r v id item h1 hid hstr hitem h2
  have hcomp : (removeItem w button (some row)).completion = .normal () := by
    unfold removeItem
    simp only [htry]
  refine ⟨hrows, ?_, ?_, hcomp⟩
  · rw [hrows]
    simp
  · rw [hrows, hworld, removeItemDone_reloads, fetchApi_reloads, fetchApi_reloads,
      fetchApi_rows, fetchApi_rows]

/-- Witness of the amended C7: removing the only row schedules one reload after 1000 ms; removing one of two
rows schedules none. -/
theorem removeItem_row_and_reload_witness :
    reloads (removeItem (page (fun _ _ => .response 200 (.normal order7)) [1])
        { disabled := false, textContent := "Remove" }
        (some { node := 1, itemId := .str "p1" })).world.log = [1000] ∧
    reloads (removeItem (page (fun _ _ => .response 200 (.normal order7)) [1, 2])
        { disabled := false, textContent := "Remove" }
        (some { node := 1, itemId := .str "p1" })).world.log = [] ∧
    (removeItem (page (fun _ _ => .response 200 (.normal order7)) [1, 2])
        { disabled := false, textContent := "Remove" }
        (some { node := 1, itemId := .str "p1" })).world.rows = [2] := by
  have h := removeItem_row_and_reload (page (fun _ _ => .response 200 (.normal order7)) [1])
    { disabled := false, textContent := "Remove" } { node := 1, itemId := .str "p1" }
    order7 order7 "7" "p1" rfl rfl rfl rfl rfl
  have h' := removeItem_row_and_reload (page (fun _ _ => .response 200 (.normal order7)) [1, 2])
    { disabled := false, textContent := "Remove" } { node := 1, itemId := .str "p1" }
    order7 order7 "7" "p1" rfl rfl rfl rfl rfl
  refine ⟨?_, ?_, ?_⟩
  · rw [h.2.2.1, h.1]; rfl
  · rw [h'.2.2.1, h'.1]; rfl
  · rw [h'.1]; rfl

/-- C9, as stated, fails on two exit paths that schedule no reload.  After a successful removal
that leaves another row, and after `GET orders/current/` answered `null`, the clicked button is
still disabled and still shows `Removing...`; in the second case its row is still in the
document. -/
theorem removeItem_button_counterexample :
    ((removeItem (page (fun _ _ => .response 200 (.normal order7)) [1, 2])
        { disabled := false, textContent := "Remove" }
        (some { node := 1, itemId := .str "p1" })).button
      = { disabled := true, textContent := "Removing..." } ∧
     reloads (removeItem (page (fun _ _ => .response 200 (.normal order7)) [1, 2])
        { disabled := false, textContent := "Remove" }
        (some { node := 1, itemId := .str "p1" })).world.log = []) ∧
    ((removeItem (page (fun _ _ => .response 200 (.normal .null)) [1, 2])
        { disabled := false, textContent := "Remove" }
        (some { node := 1, itemId := .str "p1" })).button
      = { disabled := true, textContent := "Removing..." } ∧
     reloads (removeItem (page (fun _ _ => .response 200 (.normal .null)) [1, 2])
        { disabled := false, textContent := "Remove" }
        (some { node := 1, itemId := .str "p1" })).world.log = [] ∧
     (removeItem (page (fun _ _ => .response 200 (.normal .null)) [1, 2])
        { disabled := false, textContent := "Remove" }
        (some { node := 1, itemId := .str "p1" })).world.rows = [1, 2]) := by
  refine ⟨⟨?_, ?_⟩, ?_, ?_, ?_⟩ <;> rfl

/-- C9, amended: when either transport call of `removeItem` raises, the clicked button ends
enabled with its original label; when the order resolves and the `DELETE` succeeds, the button is
not restored (it stays disabled with the label `Removing...`) and its row has left the
document. -/
theorem removeItem_button_by_path (w : World) (button : Button) (row : CartItem) :
    (∀ e, (_fetchApi w "orders/current/" "GET" .null).2 = .throw e →
        (removeItem w button (some row)).button
          = { disabled := false, textContent := button.textContent }) ∧
    (∀ (r : JsValue) (id item : String) (e : JsError),
        (_fetchApi w "orders/current/" "GET" .null).2 = .normal r →
        (r.prop "id").truthy = true → toStr (r.prop "id") = .normal id →
        toStr row.itemId = .normal item →
        (_fetchApi (_fetchApi w "orders/current/" "GET" .null).1
            ("orders/" ++ id ++ "/remove_item/" ++ item ++ "/") "DELETE" .null).2 = .throw e →
        (removeItem w button (some row)).button
          = { disabled := false, textContent := button.textContent }) ∧
    (∀ (r v : JsValue) (id item : String),
        (_fetchApi w "orders/current/" "GET" .null).2 = .normal r →
        (r.prop "id").truthy = true → toStr (r.prop "id") = .normal id →
        toStr row.itemId = .normal item →
        (_fetchApi (_fetchApi w "orders/current/" "GET" .null).1
            ("orders/" ++ id ++ "/remove_item/" ++ item ++ "/") "DELETE" .null).2 = .normal v →
        (removeItem w button (some row)).button
          = { disabled := true, textContent := "Removing..." } ∧
        row.node ∉ (removeItem w button (some row)).world.rows) := by
  refine ⟨?_, ?_, ?_⟩
  · intro e h1
    unfold removeItem
    simp only [removeItemTry_first_raises w row e h1]
  · intro r id item e h1 hid hstr hitem h2
    unfold removeItem
    simp only [removeItemTry_second_raises w row r id item e h1 hid hstr hitem h2]
  · intro r v id item h1 hid hstr hitem h2
    refine ⟨?_, ?_⟩
    · unfold removeItem
      simp only [removeItemTry_success w row r v id item h1 hid hstr hitem h2]
    · rw [removeItem_rows_after_delete w button row r v id item h1 hid hstr hitem h2]
      simp

/-- Witness of the amended C9: a refused `GET`, a refused `DELETE`, and a successful removal. -/
theorem removeItem_button_by_path_witness :
    (removeItem (page (fun _ _ => .response 500 (.throw .syntaxError)) [1, 2])
        { disabled := false, textContent := "Remove" }
        (some { node := 1, itemId := .str "p1" })).button
      = { disabled := false, textContent := "Remove" } ∧
    (removeItem (page (fun k _ => if k = 0 then .response 200 (.normal order7)
          else .response 404 (.normal (.obj [("detail", .str "Not found.")]))) [1, 2])
        { disabled := false, textContent := "Remove" }
        (some { node := 1, itemId := .str "p1" })).button
      = { disabled := false, textContent := "Remove" } ∧
    ((removeItem (page (fun _ _ => .response 200 (.normal order7)) [1, 2])
        { disabled := false, textContent := "Remove" }
        (some { node := 1, itemId := .str "p1" })).button
      = { disabled := true, textContent := "Removing..." } ∧
     1 ∉ (removeItem (page (fun _ _ => .response 200 (.normal order7)) [1, 2])
        { disabled := false, textContent := "Remove" }
        (some { node := 1, itemId := .str "p1" })).world.rows) :=
  ⟨(removeItem_button_by_path (page (fun _ _ => .response 500 (.throw .syntaxError)) [1, 2])
      { disabled := false, textContent := "Remove" } { node := 1, itemId := .str "p1" }).1
      (.error "Request failed: 500") rfl,
   (removeItem_button_by_path (page (fun k _ => if k = 0 then .response 200 (.normal order7)
          else .response 404 (.normal (.obj [("detail", .str "Not found.")]))) [1, 2])
      { disabled := false, textContent := "Remove" } { node := 1, itemId := .str "p1" }).2.1
      order7 "7" "p1" (.error "Not found.") rfl rfl rfl rfl rfl,
   (removeItem_button_by_path (page (fun _ _ => .response 200 (.normal order7)) [1, 2])
      { disabled := false, textContent := "Remove" } { node := 1, itemId := .str "p1" }).2.2
      order7 order7 "7" "p1" rfl rfl rfl rfl rfl⟩

/-! ## Checkout and the error boundary -/

theorem fetchApiSettle_setCheckoutBtn (w : World) (b : Option Button) (endpoint : String)
    (res : FetchResult) :
    _fetchApiSettle { w with checkoutBtn := b } endpoint res
      = ({ (_fetchApiSettle w endpoint res).1 with checkoutBtn := b },
          (_fetchApiSettle w endpoint res).2) := by
  cases res with
  | rejected e => rfl
  | response status json =>
    by_cases hok : isOk status = true
    · simp [_fetchApiSettle, hok]
    · simp [_fetchApiSettle, hok, consoleError]

theorem fetchApi_setCheckoutBtn (w : World) (b : Option Button) (endpoint method : String)
    (data : JsValue) :
    _fetchApi { w with checkoutBtn := b } endpoint method data
      = ({ (_fetchApi w endpoint method data).1 with checkoutBtn := b },
          (_fetchApi w endpoint method data).2) := by
  have h := fetchApiSettle_setCheckoutBtn (_fetchApiSend w endpoint method data).1 b endpoint
    (_fetchApiSend w endpoint method data).2
  exact h

theorem checkoutTry_first_raises (w : World) (e : JsError)
    (h1 : (_fetchApi w "orders/current/" "GET" .null).2 = .throw e) :
    checkoutTry w = ((_fetchApi w "orders/current/" "GET" .null).1, .throw e) := by
  unfold checkoutTry
  cases hfo : _fetchApi w "orders/current/" "GET" .null with
  | mk w1 c =>
    rw [hfo] at h1
    simp only at h1
    subst h1
    rfl

theorem checkoutTry_second_raises (w : World) (r : JsValue) (id : String) (e : JsError)
    (h1 : (_fetchApi w "orders/current/" "GET" .null).2 = .normal r)
    (hid : (r.prop "id").truthy = true) (hstr : toStr (r.prop "id") = .normal id)
    (h2 : (_fetchApi (_fetchApi w "orders/current/" "GET" .null).1
            ("orders/" ++ id ++ "/checkout/") "POST"
            (.obj [("success_url", .str (w.origin ++ "/order/success/")),
                   ("cancel_url", .str (w.origin ++ "/cart/"))])).2 = .throw e) :
    checkoutTry w
      = ((_fetchApi (_fetchApi w "orders/current/" "GET" .null).1
            ("orders/" ++ id ++ "/checkout/") "POST"
            (.obj [("success_url", .str (w.origin ++ "/order/success/")),
                   ("cancel_url", .str (w.origin ++ "/cart/"))])).1, .throw e) := by
  have hr := truthy_of_prop_truthy r "id" hid
  have ho := fetchApi_origin w "orders/current/" "GET" .null
  unfold checkoutTry
  cases hfo : _fetchApi w "orders/current/" "GET" .null with
  | mk w1 c =>
    rw [hfo] at h1 h2 ho
    simp only at h1 h2 ho
    subst h1
    simp only [hr, hid, Bool.and_self, if_true, hstr, ho]
    cases hso : _fetchApi w1 ("orders/" ++ id ++ "/checkout/") "POST"
        (.obj [("success_url", .str (w.origin ++ "/order/success/")),
               ("cancel_url", .str (w.origin ++ "/cart/"))]) with
    | mk w2 c2 =>
      rw [hso] at h2
      simp only at h2
      subst h2
      rfl

theorem errorToast_boundary (w0 w : World) (label message : String) (e : JsError)
    (issued : List Request)
    (hn : notifications w.log = notifications w0.log)
    (hr : requests w.log = requests w0.log ++ issued) :
    ErrorBoundary w0.log (showToast (consoleError w label e) message "error").log issued
      message := by
  unfold ErrorBoundary
  simp [showToast, consoleError, notifications_append, requests_append, notifications, requests,
    hn, hr]

theorem two_calls_boundary (w : World) (endpoint method : String) (data : JsValue) :
    notifications (_fetchApi (_fetchApi w "orders/current/" "GET" .null).1 endpoint method data).1.log
      = notifications w.log ∧
    requests (_fetchApi (_fetchApi w "orders/current/" "GET" .null).1 endpoint method data).1.log
      = requests w.log ++
        [buildRequest w "orders/current/" "GET" .null, buildRequest w endpoint method data] := by
  constructor
  · rw [fetchApi_notifications, fetchApi_notifications]
  · rw [fetchApi_requests, fetchApi_requests,
      buildRequest_congr w _ (fetchApi_cookie w "orders/current/" "GET" .null)]
    simp

/-- C8: in `addToCart`, `removeItem` and `checkout`, when the order resolution raises, or when
it succeeds and the mutating call raises, the operation shows exactly one notification, of
severity `error`, issues no request after the one that raised, and completes normally. -/
theorem error_boundary (w : World) (e : JsError) :
    (∀ (button : Button) (p : JsValue),
        (_fetchApi w "orders/current/" "GET" .null).2 = .throw e →
        ErrorBoundary w.log (addToCart w button p).world.log
          [buildRequest w "orders/current/" "GET" .null] "Error adding item" ∧
        (addToCart w button p).completion = .normal ()) ∧
    (∀ (button : Button) (p r : JsValue) (id : String),
        (_fetchApi w "orders/current/" "GET" .null).2 = .normal r →
        (r.prop "id").truthy = true → toStr (r.prop "id") = .normal id →
        (_fetchApi (_fetchApi w "orders/current/" "GET" .null).1
            ("orders/" ++ id ++ "/add_item/") "POST"
            (.obj [("item_id", p), ("quantity", .num 1)])).2 = .throw e →
        ErrorBoundary w.log (addToCart w button p).world.log
          [buildRequest w "orders/current/" "GET" .null,
           buildRequest w ("orders/" ++ id ++ "/add_item/") "POST"
            (.obj [("item_id", p), ("quantity", .num 1)])] "Error adding item" ∧
        (addToCart w button p).completion = .normal ()) ∧
    (∀ (button : Button) (row : CartItem),
        (_fetchApi w "orders/current/" "GET" .null).2 = .throw e →
        ErrorBoundary w.log (removeItem w button (some row)).world.log
          [buildRequest w "orders/current/" "GET" .null] "Error removing item" ∧
        (removeItem w button (some row)).completion = .normal ()) ∧
    (∀ (button : Button) (row : CartItem) (r : JsValue) (id item : String),
        (_fetchApi w "orders/current/" "GET" .null).2 = .normal r →
        (r.prop "id").truthy = true → toStr (r.prop "id") = .normal id →
        toStr row.itemId = .normal item →
        (_fetchApi (_fetchApi w "orders/current/" "GET" .null).1
            ("orders/" ++ id ++ "/remove_item/" ++ item ++ "/") "DELETE" .null).2 = .throw e →
        ErrorBoundary w.log (removeItem w button (some row)).world.log
          [buildRequest w "orders/current/" "GET" .null,
           buildRequest w ("orders/" ++ id ++ "/remove_item/" ++ item ++ "/") "DELETE" .null]
          "Error removing item" ∧
        (removeItem w button (some row)).completion = .normal ()) ∧
    (∀ btn : Button, w.checkoutBtn = some btn →
        (_fetchApi w "orders/current/" "GET" .null).2 = .throw e →
        ErrorBoundary w.log (checkout w).1.log
          [buildRequest w "orders/current/" "GET" .null] "Error during checkout" ∧
        (checkout w).2 = .normal ()) ∧
    (∀ (btn : Button) (r : JsValue) (id : String), w.checkoutBtn = some btn →
        (_fetchApi w "orders/current/" "GET" .null).2 = .normal r →
        (r.prop "id").truthy = true → toStr (r.prop "id") = .normal id →
        (_fetchApi (_fetchApi w "orders/current/" "GET" .null).1
            ("orders/" ++ id ++ "/checkout/") "POST"
            (.obj [("success_url", .str (w.origin ++ "/order/success/")),
                   ("cancel_url", .str (w.origin ++ "/cart/"))])).2 = .throw e →
        ErrorBoundary w.log (checkout w).1.log
          [buildRequest w "orders/current/" "GET" .null,
           buildRequest w ("orders/" ++ id ++ "/checkout/") "POST"
            (.obj [("success_url", .str (w.origin ++ "/order/success/")),
                   ("cancel_url", .str (w.origin ++ "/cart/"))])] "Error during checkout" ∧
        (checkout w).2 = .normal ()) := by
  refine ⟨?_, ?_, ?_, ?_, ?_, ?_⟩
  · intro button p h1
    unfold addToCart
    simp only [addToCartTry_first_raises w p e h1]
    exact ⟨errorToast_boundary w _ _ _ _ _ (fetchApi_notifications _ _ _ _)
      (fetchApi_requests _ _ _ _), trivial⟩
  · intro button p r id h1 hid hstr h2
    unfold addToCart
    simp only [addToCartTry_second_raises w p r id e h1 hid hstr h2]
    have hb := two_calls_boundary w ("orders/" ++ id ++ "/add_item/") "POST"
      (.obj [("item_id", p), ("quantity", .num 1)])
    exact ⟨errorToast_boundary w _ _ _ _ _ hb.1 hb.2, trivial⟩
  · intro button row h1
    unfold removeItem
    simp only [removeItemTry_first_raises w row e h1]
    exact ⟨errorToast_boundary w _ _ _ _ _ (fetchApi_notifications _ _ _ _)
      (fetchApi_requests _ _ _ _), trivial⟩
  · intro button row r id item h1 hid hstr hitem h2
    unfold removeItem
    simp only [removeItemTry_second_raises w row r id item e h1 hid hstr hitem h2]
    have hb := two_calls_boundary w ("orders/" ++ id ++ "/remove_item/" ++ item ++ "/") "DELETE"
      .null
    exact ⟨errorToast_boundary w _ _ _ _ _ hb.1 hb.2, trivial⟩
  · intro btn hbtn h1
    have h1' : (_fetchApi
        { w with checkoutBtn := some { disabled := true, textContent := "Processing..." } }
        "orders/current/" "GET" .null).2 = .throw e := by
      rw [fetchApi_setCheckoutBtn]; exact h1
    unfold checkout
    rw [hbtn]
    simp only [checkoutTry_first_raises _ e h1']
    exact ⟨errorToast_boundary w _ _ _ _ _ (fetchApi_notifications _ _ _ _)
      (fetchApi_requests _ _ _ _), trivial⟩
  · intro btn r id hbtn h1 hid hstr h2
    have h1' : (_fetchApi
        { w with checkoutBtn := some { disabled := true, textContent := "Processing..." } }
        "orders/current/" "GET" .null).2 = .normal r := by
      rw [fetchApi_setCheckoutBtn]; exact h1
    have h2' : (_fetchApi (_fetchApi
        { w with checkoutBtn := some { disabled := true, textContent := "Processing..." } }
        "orders/current/" "GET" .null).1
          ("orders/" ++ id ++ "/checkout/") "POST"
          (.obj [("success_url", .str (w.origin ++ "/order/success/")),
                 ("cancel_url", .str (w.origin ++ "/cart/"))])).2 = .throw e := by
      rw [fetchApi_setCheckoutBtn w, fetchApi_setCheckoutBtn]; exact h2
    unfold checkout
    rw [hbtn]
    simp only [checkoutTry_second_raises _ r id e h1' hid hstr h2']
    have hb := two_calls_boundary
      { w with checkoutBtn := some { disabled := true, textContent := "Processing..." } }
      ("orders/" ++ id ++ "/checkout/") "POST"
      (.obj [("success_url", .str (w.origin ++ "/order/success/")),
             ("cancel_url", .str (w.origin ++ "/cart/"))])
    exact ⟨errorToast_boundary w _ _ _ _ _ hb.1 hb.2, trivial⟩

/-- Witness of C8: each operation against a server that refuses the first call, and against a
server that refuses the second call. -/
theorem error_boundary_witness :
    (notifications (addToCart (page refusing []) { disabled := false, textContent := "Add" }
        (.str "p3")).world.log = [("Error adding item", "error")] ∧
     (requests (addToCart (page refusing []) { disabled := false, textContent := "Add" }
        (.str "p3")).world.log).length = 1) ∧
    (notifications (addToCart (page refusingSecond []) { disabled := false, textContent := "Add" }
        (.str "p3")).world.log = [("Error adding item", "error")] ∧
     (requests (addToCart (page refusingSecond []) { disabled := false, textContent := "Add" }
        (.str "p3")).world.log).length = 2) ∧
    (notifications (removeItem (page refusing [1]) { disabled := false, textContent := "Remove" }
        (some { node := 1, itemId := .str "p1" })).world.log = [("Error removing item", "error")] ∧
     (removeItem (page refusing [1]) { disabled := false, textContent := "Remove" }
        (some { node := 1, itemId := .str "p1" })).completion = .normal ()) ∧
    (notifications (removeItem (page refusingSecond [1])
        { disabled := false, textContent := "Remove" }
        (some { node := 1, itemId := .str "p1" })).world.log = [("Error removing item", "error")] ∧
     (removeItem (page refusingSecond [1]) { disabled := false, textContent := "Remove" }
        (some { node := 1, itemId := .str "p1" })).completion = .normal ()) ∧
    (notifications (checkout (page refusing [1])).1.log = [("Error during checkout", "error")] ∧
     (checkout (page refusing [1])).2 = .normal ()) ∧
    (notifications (checkout (page refusingSecond [1])).1.log
        = [("Error during checkout", "error")] ∧
     (checkout (page refusingSecond [1])).2 = .normal ()) := by
  have a1 := (error_boundary (page refusing []) (.error "Request failed: 500")).1
    { disabled := false, textContent := "Add" } (.str "p3") rfl
  have a2 := (error_boundary (page refusingSecond []) (.error "Forbidden")).2.1
    { disabled := false, textContent := "Add" } (.str "p3") order7 "7" rfl rfl rfl rfl
  have r1 := (error_boundary (page refusing [1]) (.error "Request failed: 500")).2.2.1
    { disabled := false, textContent := "Remove" } { node := 1, itemId := .str "p1" } rfl
  have r2 := (error_boundary (page refusingSecond [1]) (.error "Forbidden")).2.2.2.1
    { disabled := false, textContent := "Remove" } { node := 1, itemId := .str "p1" }
    order7 "7" "p1" rfl rfl rfl rfl rfl
  have k1 := (error_boundary (page refusing [1]) (.error "Request failed: 500")).2.2.2.2.1
    { disabled := false, textContent := "Checkout" } rfl rfl
  have k2 := (error_boundary (page refusingSecond [1]) (.error "Forbidden")).2.2.2.2.2
    { disabled := false, textContent := "Checkout" } order7 "7" rfl rfl rfl rfl rfl
  refine ⟨⟨a1.1.1, ?_⟩, ⟨a2.1.1, ?_⟩, ⟨r1.1.1, r1.2⟩, ⟨r2.1.1, r2.2⟩, ⟨k1.1.1, k1.2⟩,
    ⟨k2.1.1, k2.2⟩⟩
  · rw [a1.1.2]; rfl
  · rw [a2.1.2]; rfl

end StoreFront
